import Mathlib

/-!
Shallow embedding of the push-notification dispatch subsystem of a
multi-tenant web push platform (Express + Mongoose backend).

Embedded source files:
* `backend/routes/notifications.js` — the `/send` handler with its inner
  `sendNotifications` dispatch closure, and the `/preview` handler.
* `backend/routes/subscribe.js` — public subscription registration,
  unsubscription, and the VAPID public-key endpoint.
* the Mongoose `Notification` model (`markAsSent`, `markAsFailed`) and the
  Mongoose `PushSubscription` model (unique `(clientId, endpoint)` index).
* `utils/validation.js` — `sanitizeString`, `validateStringLength`,
  `validateNotificationContent`, `validateUrl`.

Modelling conventions:
* Mongo documents become Lean structures; object ids become `Nat`.
* The database is a `ServerState` record of lists; each route handler is a
  function from request data and state to a new state and a response.
* Timestamps (`sentAt`, `subscribedAt`, `createdAt`) carry no information
  the verified claims mention and are elided from the records.
* The URL regular-expression test (`URL_REGEX.test`) is abstracted as a
  `String → Bool` parameter `urlTest`; theorems hold for every choice.
* Concurrency: the per-subscriber deliveries of one dispatch run
  concurrently in the source but only increment two shared counters and
  append to one array, which commute, so the fan-out is embedded as a fold
  over the subscription snapshot.  The outcome of each individual delivery
  attempt is an oracle `deliver : PushSubscriptionRec → DeliveryResult`.
* The `try`/`catch` around the dispatch body is modelled by an optional
  `EngineFault` marking where (if anywhere) an engine-level error is
  thrown: before the fan-out settles, at the batch delete, or while
  persisting the `sent` finalization (after `markAsSent` has already
  assigned the result fields in memory).
-/

set_option maxHeartbeats 1000000
set_option linter.unusedVariables false

namespace PwaPush

/-! ### Data model -/

/-- A tenant account (`Client` model): display name, optional branding
image URL, and an `active`/`inactive` status string. -/
structure Client where
  id : Nat
  clientName : String
  brandLogoUrl : Option String
  status : String
  deriving DecidableEq, Repr

/-- The browser-provided push subscription object stored in the
`subscription` field: endpoint URL plus the `p256dh` and `auth` keys. -/
structure SubObj where
  endpoint : String
  p256dh : String
  auth : String
  deriving DecidableEq, Repr

/-- Diagnostic metadata stored with a subscription (timestamps elided). -/
structure Metadata where
  domain : String
  userAgent : String
  deriving DecidableEq, Repr

/-- A stored `PushSubscription` document. -/
structure PushSubscriptionRec where
  id : Nat
  clientId : Nat
  subscription : SubObj
  metadata : Metadata
  deriving DecidableEq, Repr

/-- Notification lifecycle status (`pending`, `sent`, `failed`). -/
inductive NStatus where
  | pending
  | sent
  | failed
  deriving DecidableEq, Repr

/-- A stored `Notification` document. -/
structure NotificationRec where
  id : Nat
  clientId : Nat
  title : String
  content : String
  promoImageUrl : Option String
  status : NStatus
  recipientCount : Nat
  successCount : Nat
  failureCount : Nat
  errorMessage : Option String
  deriving DecidableEq, Repr

/-- The persistent store: clients, push subscriptions, notifications, and
fresh-id counters standing for database id generation. -/
structure ServerState where
  clients : List Client
  subscriptions : List PushSubscriptionRec
  notifications : List NotificationRec
  nextSubscriptionId : Nat
  nextNotificationId : Nat
  deriving DecidableEq, Repr

/-! ### Validation utilities (`utils/validation.js`) -/

/-- JavaScript `String.prototype.trim()`: drop whitespace from both ends
(written over the character list so that it computes by structural
recursion). -/
def jsTrim (s : String) : String :=
  String.mk
    (((s.data.dropWhile Char.isWhitespace).reverse.dropWhile Char.isWhitespace).reverse)

/-- Characters stripped by `sanitizeString`.  The source removes the five
characters matched by the regex class: less-than (60), greater-than (62),
double quote (34), single quote (39) and ampersand (38). -/
def xssChar (c : Char) : Bool :=
  c == Char.ofNat 60 || c == Char.ofNat 62 || c == Char.ofNat 34 ||
    c == Char.ofNat 39 || c == Char.ofNat 38

/-- Translation of `sanitizeString`: trim, strip the XSS characters, then
truncate to 1000 characters (`substring(0, 1000)`). -/
def sanitizeString (str : String) : String :=
  String.mk (((jsTrim str).data.filter (fun c => !(xssChar c))).take 1000)

/-- Result shape of `validateStringLength` (and, reused, of other
single-field validators): validity flag, error message, sanitized value. -/
structure FieldValidation where
  isValid : Bool
  message : String
  sanitizedValue : Option String
  deriving DecidableEq, Repr

/-- Translation of `validateStringLength`.  A missing or non-string input
is modelled as `none`; the empty string is falsy in the source and also
rejected as required. -/
def validateStringLength (str : Option String) (fieldName : String)
    (minLength maxLength : Nat) : FieldValidation :=
  match str with
  | none =>
    { isValid := false, message := fieldName ++ " is required", sanitizedValue := none }
  | some s =>
    if s = "" then
      { isValid := false, message := fieldName ++ " is required", sanitizedValue := none }
    else
      let sanitizedStr := sanitizeString s
      if sanitizedStr.length < minLength then
        { isValid := false
          message := fieldName ++ " must be at least " ++ toString minLength ++
            " characters long"
          sanitizedValue := none }
      else if maxLength < sanitizedStr.length then
        { isValid := false
          message := fieldName ++ " must be no more than " ++ toString maxLength ++
            " characters long"
          sanitizedValue := none }
      else
        { isValid := true, message := "", sanitizedValue := some sanitizedStr }

/-- Result shape of `validateNotificationContent`. -/
structure ContentValidation where
  isValid : Bool
  errors : List String
  sanitizedTitle : Option String
  sanitizedContent : Option String
  deriving DecidableEq, Repr

/-- Translation of `validateNotificationContent`: title bounded by 1..100,
content by 1..500, both measured on the sanitized string; error messages
are collected and validity means the error list is empty. -/
def validateNotificationContent (title content : Option String) : ContentValidation :=
  let titleValidation := validateStringLength title "Title" 1 100
  let contentValidation := validateStringLength content "Content" 1 500
  let errors :=
    (if titleValidation.isValid then [] else [titleValidation.message]) ++
      (if contentValidation.isValid then [] else [contentValidation.message])
  { isValid := errors.length = 0
    errors := errors
    sanitizedTitle := titleValidation.sanitizedValue
    sanitizedContent := contentValidation.sanitizedValue }

/-- Result shape of `validateUrl`. -/
structure UrlValidation where
  isValid : Bool
  message : String
  sanitizedValue : String
  deriving DecidableEq, Repr

/-- Translation of `validateUrl`: a missing or empty URL is accepted as
optional; otherwise the trimmed URL must pass the URL regex (abstracted as
`urlTest`) and be at most 2048 characters. -/
def validateUrl (urlTest : String → Bool) (url : Option String) : UrlValidation :=
  match url with
  | none => { isValid := true, message := "", sanitizedValue := "" }
  | some u =>
    if u = "" then { isValid := true, message := "", sanitizedValue := "" }
    else
      let sanitizedUrl := jsTrim u
      if !(urlTest sanitizedUrl) then
        { isValid := false
          message := "Please enter a valid URL"
          sanitizedValue := "" }
      else if 2048 < sanitizedUrl.length then
        { isValid := false, message := "URL is too long", sanitizedValue := "" }
      else
        { isValid := true, message := "", sanitizedValue := sanitizedUrl }

/-- JavaScript string falsiness for optional string fields: absent or
empty. -/
def strFalsy : Option String → Bool
  | none => true
  | some s => s == ""

/-! ### Notification record lifecycle (Mongoose `Notification` model) -/

/-- Translation of the instance method `markAsSent(recipientCount,
successCount, failureCount)`: sets status `sent` and overwrites the three
counters with the given values (`x || 0` is the identity on `Nat`), then
saves; `sentAt` is elided. -/
def markAsSent (n : NotificationRec)
    (recipientCount successCount failureCount : Nat) : NotificationRec :=
  { n with status := NStatus.sent
           recipientCount := recipientCount
           successCount := successCount
           failureCount := failureCount }

/-- Translation of the instance method `markAsFailed(errorMessage)`: sets
status `failed` and the error message, touching no other field. -/
def markAsFailed (n : NotificationRec) (errorMessage : String) : NotificationRec :=
  { n with status := NStatus.failed, errorMessage := some errorMessage }

/-! ### The dispatch engine (`sendNotifications` in `routes/notifications.js`) -/

/-- Outcome of one `webpush.sendNotification` call: success, or a thrown
error whose optional `statusCode` is the push-service HTTP status (absent
for non-HTTP errors such as a missing VAPID configuration). -/
inductive DeliveryResult where
  | ok
  | err (statusCode : Option Nat)
  deriving DecidableEq, Repr

/-- A delivery error is classified permanent when its status code is 410
or 404 (`error.statusCode === 410 || error.statusCode === 404`). -/
def permanentFailure : DeliveryResult → Bool
  | DeliveryResult.ok => false
  | DeliveryResult.err c => c == some 410 || c == some 404

/-- The three mutable aggregates of the dispatch closure: `successCount`,
`failureCount`, and the `invalidSubscriptions` id array. -/
structure FanoutTotals where
  successCount : Nat
  failureCount : Nat
  invalidSubscriptions : List Nat
  deriving DecidableEq, Repr

/-- The fan-out over the subscription snapshot (`subscriptions.map(async
(sub) => ...)` joined by `Promise.allSettled`): every success increments
`successCount`; every thrown error increments `failureCount` and, when it
carries status 410 or 404, additionally records the subscription id in
`invalidSubscriptions`.  The concurrent increments commute, so the settled
totals are computed by structural recursion over the snapshot. -/
def fanout (deliver : PushSubscriptionRec → DeliveryResult) :
    List PushSubscriptionRec → FanoutTotals
  | [] => { successCount := 0, failureCount := 0, invalidSubscriptions := [] }
  | sub :: rest =>
    let acc := fanout deliver rest
    match deliver sub with
    | DeliveryResult.ok => { acc with successCount := acc.successCount + 1 }
    | DeliveryResult.err c =>
      if c == some 410 || c == some 404 then
        { acc with failureCount := acc.failureCount + 1
                   invalidSubscriptions := sub.id :: acc.invalidSubscriptions }
      else
        { acc with failureCount := acc.failureCount + 1 }

/-- Saving a fetched `Notification` document: the stored record with the
same id is replaced by the in-memory one. -/
def updateNotification (st : ServerState) (n : NotificationRec) : ServerState :=
  { st with notifications :=
      st.notifications.map (fun m => if m.id = n.id then n else m) }

/-- The batch prune (`if (invalidSubscriptions.length > 0) deleteMany({
_id: { $in: invalidSubscriptions } })`): one batch delete of every marked
subscription. -/
def pruneInvalid (st : ServerState) (invalid : List Nat) : ServerState :=
  if invalid.length = 0 then st
  else
    { st with subscriptions :=
        st.subscriptions.filter (fun s => !(invalid.contains s.id)) }

/-- Where an engine-level error (one thrown outside the per-subscriber
handlers, caught by the dispatch closure's outer `catch`) occurs:
* `beforeFanout` — in the body before the fan-out settles (e.g. while
  building the payload);
* `atPrune` — the batch `deleteMany` rejects (nothing is deleted);
* `atFinalize` — `markAsSent`'s `save()` rejects after the result fields
  were already assigned on the in-memory document. -/
inductive EngineFault where
  | beforeFanout (msg : String)
  | atPrune (msg : String)
  | atFinalize (msg : String)
  deriving DecidableEq, Repr

/-- Translation of the dispatch closure `sendNotifications`: on the
fault-free path the fan-out settles, marked subscriptions are pruned in
one batch, and the record is finalized with `markAsSent(subscriptions.
length, successCount, failureCount)`.  An engine-level fault lands in the
outer `catch`, which runs `markAsFailed(error.message)` on the in-memory
document as it stands at the throw point (for `atFinalize` that document
already carries the `markAsSent` assignments). -/
def sendNotifications (st : ServerState) (n : NotificationRec)
    (subs : List PushSubscriptionRec)
    (deliver : PushSubscriptionRec → DeliveryResult)
    (fault : Option EngineFault) : ServerState :=
  match fault with
  | some (EngineFault.beforeFanout msg) => updateNotification st (markAsFailed n msg)
  | some (EngineFault.atPrune msg) => updateNotification st (markAsFailed n msg)
  | some (EngineFault.atFinalize msg) =>
    let totals := fanout deliver subs
    let st1 := pruneInvalid st totals.invalidSubscriptions
    updateNotification st1
      (markAsFailed
        (markAsSent n subs.length totals.successCount totals.failureCount) msg)
  | none =>
    let totals := fanout deliver subs
    let st1 := pruneInvalid st totals.invalidSubscriptions
    updateNotification st1
      (markAsSent n subs.length totals.successCount totals.failureCount)

/-! ### `POST /api/notifications/send` -/

/-- Request body of `/send` and `/preview`: fields are optional strings
(absent or non-string values are `none`). -/
structure SendRequest where
  title : Option String
  content : Option String
  promoImageUrl : Option String
  deriving DecidableEq, Repr

/-- Responses of the `/send` handler. -/
inductive SendResponse where
  | validationFailed (errors : List String)
  | invalidUrl (message : String)
  | accountInactive
  | noSubscribers
  | accepted (notificationId recipientCount : Nat)
  deriving DecidableEq, Repr

/-- HTTP status of each `/send` response. -/
def SendResponse.httpStatus : SendResponse → Nat
  | SendResponse.validationFailed _ => 400
  | SendResponse.invalidUrl _ => 400
  | SendResponse.accountInactive => 403
  | SendResponse.noSubscribers => 400
  | SendResponse.accepted _ _ => 202

/-- Translation of `Client.findById` over the store. -/
def findClient (st : ServerState) (clientId : Nat) : Option Client :=
  st.clients.find? (fun c => c.id == clientId)

/-- Translation of the query for all push subscriptions of a tenant over the store. -/
def subsForClient (st : ServerState) (clientId : Nat) : List PushSubscriptionRec :=
  st.subscriptions.filter (fun s => s.clientId == clientId)

/-- The promo-image step shared by `/send` and `/preview`: skipped when
the field is falsy, otherwise `validateUrl` either rejects the request or
yields the sanitized URL. -/
def promoStep (urlTest : String → Bool) (promoImageUrl : Option String) :
    Except String (Option String) :=
  match promoImageUrl with
  | none => Except.ok none
  | some u =>
    if u = "" then Except.ok none
    else
      let urlValidation := validateUrl urlTest (some u)
      if !urlValidation.isValid then Except.error urlValidation.message
      else Except.ok (some urlValidation.sanitizedValue)

/-- The dispatch work captured by the fire-and-forget closure: the freshly
saved pending record and the subscription snapshot read before it. -/
structure DispatchJob where
  notification : NotificationRec
  subscriptions : List PushSubscriptionRec
  deriving DecidableEq, Repr

/-- Translation of the `/send` handler body (after the authentication
middleware resolved `clientId`): content validation, promo-URL validation,
active-client check, the empty-subscriber rejection, creation of the
pending record, and the 202 response.  The returned `DispatchJob` is the
closure argument of the asynchronous `sendNotifications()` call; `none`
means no dispatch was started. -/
def handleSend (urlTest : String → Bool) (clientId : Nat) (req : SendRequest)
    (st : ServerState) : ServerState × SendResponse × Option DispatchJob :=
  let contentValidation := validateNotificationContent req.title req.content
  if !contentValidation.isValid then
    (st, SendResponse.validationFailed contentValidation.errors, none)
  else
    match promoStep urlTest req.promoImageUrl with
    | Except.error msg => (st, SendResponse.invalidUrl msg, none)
    | Except.ok sanitizedPromoImageUrl =>
      match findClient st clientId with
      | none => (st, SendResponse.accountInactive, none)
      | some client =>
        if client.status ≠ "active" then (st, SendResponse.accountInactive, none)
        else
          let subscriptions := subsForClient st clientId
          if subscriptions.length = 0 then (st, SendResponse.noSubscribers, none)
          else
            let notification : NotificationRec :=
              { id := st.nextNotificationId
                clientId := clientId
                title := contentValidation.sanitizedTitle.getD ""
                content := contentValidation.sanitizedContent.getD ""
                promoImageUrl := sanitizedPromoImageUrl
                status := NStatus.pending
                recipientCount := subscriptions.length
                successCount := 0
                failureCount := 0
                errorMessage := none }
            let st1 : ServerState :=
              { st with notifications := st.notifications ++ [notification]
                        nextNotificationId := st.nextNotificationId + 1 }
            (st1, SendResponse.accepted notification.id subscriptions.length,
              some { notification := notification, subscriptions := subscriptions })

/-- The `/send` request followed by the completion of its asynchronous
dispatch (when one was started). -/
def processSend (urlTest : String → Bool) (clientId : Nat) (req : SendRequest)
    (deliver : PushSubscriptionRec → DeliveryResult) (fault : Option EngineFault)
    (st : ServerState) : ServerState × SendResponse :=
  match handleSend urlTest clientId req st with
  | (st1, resp, none) => (st1, resp)
  | (st1, resp, some job) =>
    (sendNotifications st1 job.notification job.subscriptions deliver fault, resp)

/-- Module initialization of `routes/notifications.js` (lines 10-19):
`webpush.setVapidDetails` is called only when both VAPID keys are present;
otherwise a warning is logged and nothing else happens. -/
def vapidConfigured (vapidPublicKey vapidPrivateKey : Option String) : Bool :=
  !(strFalsy vapidPublicKey) && !(strFalsy vapidPrivateKey)

/-- The `/send` route in the context of the module's VAPID configuration.
The handler body (lines 131-285) never reads the VAPID configuration, so
the processing is the same whether or not the keys are configured; absent
keys only make every `webpush.sendNotification` call throw, which the
`deliver` oracle captures. -/
def processSendWithVapid (vapidPublicKey vapidPrivateKey : Option String)
    (urlTest : String → Bool) (clientId : Nat) (req : SendRequest)
    (deliver : PushSubscriptionRec → DeliveryResult) (fault : Option EngineFault)
    (st : ServerState) : ServerState × SendResponse :=
  processSend urlTest clientId req deliver fault st

/-! ### `POST /api/notifications/preview` -/

/-- The computed preview object. -/
structure PreviewData where
  title : String
  content : String
  promoImageUrl : Option String
  brandLogoUrl : Option String
  clientName : String
  subscriberCount : Nat
  estimatedReach : Nat
  deriving DecidableEq, Repr

/-- Responses of the `/preview` handler. -/
inductive PreviewResponse where
  | validationFailed (errors : List String)
  | invalidUrl (message : String)
  | clientNotFound
  | ok (preview : PreviewData)
  deriving DecidableEq, Repr

/-- Translation of the `/preview` handler: content validation, promo-URL
validation, client lookup (404 when absent), subscriber count, and the
computed preview.  The handler performs reads only. -/
def handlePreview (urlTest : String → Bool) (clientId : Nat) (req : SendRequest)
    (st : ServerState) : ServerState × PreviewResponse :=
  let contentValidation := validateNotificationContent req.title req.content
  if !contentValidation.isValid then
    (st, PreviewResponse.validationFailed contentValidation.errors)
  else
    match promoStep urlTest req.promoImageUrl with
    | Except.error msg => (st, PreviewResponse.invalidUrl msg)
    | Except.ok sanitizedPromoImageUrl =>
      match findClient st clientId with
      | none => (st, PreviewResponse.clientNotFound)
      | some client =>
        let subscriberCount := (subsForClient st clientId).length
        (st, PreviewResponse.ok
          { title := contentValidation.sanitizedTitle.getD ""
            content := contentValidation.sanitizedContent.getD ""
            promoImageUrl := sanitizedPromoImageUrl
            brandLogoUrl := client.brandLogoUrl
            clientName := client.clientName
            subscriberCount := subscriberCount
            estimatedReach := subscriberCount })

/-! ### `POST /api/subscribe` and `DELETE /api/subscribe` -/

/-- The `keys` object of a submitted subscription payload. -/
structure KeysPayload where
  p256dh : Option String
  auth : Option String
  deriving DecidableEq, Repr

/-- A submitted subscription payload; absent or non-string members are
`none`. -/
structure SubPayload where
  endpoint : Option String
  keys : Option KeysPayload
  deriving DecidableEq, Repr

/-- Request body of the public subscribe endpoint. -/
structure SubscribeRequest where
  subscription : Option SubPayload
  clientId : Option Nat
  domain : Option String
  deriving DecidableEq, Repr

/-- Responses of the subscribe endpoint. -/
inductive SubscribeResponse where
  | missingFields
  | invalidSubscription
  | clientNotFound
  | clientInactive
  | updated (subscriptionId : Nat)
  | created (subscriptionId : Nat)
  deriving DecidableEq, Repr

/-- HTTP status of each subscribe response. -/
def SubscribeResponse.httpStatus : SubscribeResponse → Nat
  | SubscribeResponse.missingFields => 400
  | SubscribeResponse.invalidSubscription => 400
  | SubscribeResponse.clientNotFound => 404
  | SubscribeResponse.clientInactive => 403
  | SubscribeResponse.updated _ => 200
  | SubscribeResponse.created _ => 201

/-- The structural check on the payload (`!subscription.endpoint ||
!subscription.keys || !subscription.keys.p256dh ||
!subscription.keys.auth`). -/
def invalidShape (sub : SubPayload) : Bool :=
  strFalsy sub.endpoint ||
    (match sub.keys with
     | none => true
     | some k => strFalsy k.p256dh || strFalsy k.auth)

/-- The stored subscription object built from a payload that passed the
shape check (every member present and non-empty). -/
def payloadSubObj (sub : SubPayload) : SubObj :=
  { endpoint := sub.endpoint.getD ""
    p256dh := (sub.keys.bind KeysPayload.p256dh).getD ""
    auth := (sub.keys.bind KeysPayload.auth).getD "" }

/-- The Mongo query `{ clientId, subscription.endpoint: endpoint }` as a
predicate on stored records. -/
def pairMatch (clientId : Nat) (endpoint : String) (r : PushSubscriptionRec) : Bool :=
  r.clientId == clientId && r.subscription.endpoint == endpoint

/-- The in-place update `existingSubscription.subscription = subscription;
existingSubscription.save()`: the record with the found id gets the new
subscription object, every other record is unchanged. -/
def replaceSub (exId : Nat) (newSub : SubObj) (r : PushSubscriptionRec) :
    PushSubscriptionRec :=
  if r.id = exId then { r with subscription := newSub } else r

/-- Translation of the subscribe handler: field presence checks, payload
shape check, client existence and active-status checks, then the upsert:
an existing `(clientId, endpoint)` record gets its `subscription` object
replaced in place, otherwise a new record is created.  The optional domain
lookup only logs a warning and is elided. -/
def handleSubscribe (userAgent : Option String) (req : SubscribeRequest)
    (st : ServerState) : ServerState × SubscribeResponse :=
  match req.subscription, req.clientId with
  | none, _ => (st, SubscribeResponse.missingFields)
  | some _, none => (st, SubscribeResponse.missingFields)
  | some sub, some clientId =>
    if invalidShape sub then (st, SubscribeResponse.invalidSubscription)
    else
      match findClient st clientId with
      | none => (st, SubscribeResponse.clientNotFound)
      | some client =>
        if client.status ≠ "active" then (st, SubscribeResponse.clientInactive)
        else
          let newSub : SubObj := payloadSubObj sub
          match st.subscriptions.find? (pairMatch clientId newSub.endpoint) with
          | some existingSubscription =>
            let st1 : ServerState :=
              { st with subscriptions :=
                  st.subscriptions.map (replaceSub existingSubscription.id newSub) }
            (st1, SubscribeResponse.updated existingSubscription.id)
          | none =>
            let newRecord : PushSubscriptionRec :=
              { id := st.nextSubscriptionId
                clientId := clientId
                subscription := newSub
                metadata :=
                  { domain := if strFalsy req.domain then "unknown" else req.domain.getD ""
                    userAgent :=
                      if strFalsy userAgent then "unknown" else userAgent.getD "" } }
            ({ st with subscriptions := st.subscriptions ++ [newRecord]
                       nextSubscriptionId := st.nextSubscriptionId + 1 },
              SubscribeResponse.created newRecord.id)

/-- Translation of the unsubscribe handler: `deleteOne({ clientId,
endpoint })` removes the first matching record; the boolean reports
whether a record was deleted. -/
def handleUnsubscribe (endpoint : Option String) (clientId : Option Nat)
    (st : ServerState) : ServerState × Bool :=
  match endpoint, clientId with
  | none, _ => (st, false)
  | some _, none => (st, false)
  | some e, some cid =>
    if e = "" then (st, false)
    else
      if st.subscriptions.any (pairMatch cid e) then
        ({ st with subscriptions := st.subscriptions.eraseP (pairMatch cid e) }, true)
      else (st, false)

/-- Translation of `DELETE /api/notifications/:id`:
`findOneAndDelete({ _id, clientId })` removes the first matching record. -/
def handleDeleteNotification (clientId notificationId : Nat)
    (st : ServerState) : ServerState × Bool :=
  if st.notifications.any (fun n => n.id == notificationId && n.clientId == clientId) then
    ({ st with
        notifications := st.notifications.eraseP
            (fun n => n.id == notificationId && n.clientId == clientId) }, true)
  else (st, false)

/-! ### Operation semantics over the store -/

/-- The store-mutating and store-reading operations of the embedded
routes.  A `send` carries its delivery oracle and engine-fault point; its
dispatch is applied atomically right after the handler (the dispatch of
the source runs detached, but the invariants proved below are also shown
to be preserved by `sendNotifications` applied at an arbitrary later
state). -/
inductive Op where
  | subscribe (userAgent : Option String) (req : SubscribeRequest)
  | unsubscribe (endpoint : Option String) (clientId : Option Nat)
  | send (urlTest : String → Bool) (clientId : Nat) (req : SendRequest)
      (deliver : PushSubscriptionRec → DeliveryResult) (fault : Option EngineFault)
  | preview (urlTest : String → Bool) (clientId : Nat) (req : SendRequest)
  | deleteNotification (clientId notificationId : Nat)

/-- Effect of one operation on the store. -/
def applyOp (st : ServerState) : Op → ServerState
  | Op.subscribe ua req => (handleSubscribe ua req st).1
  | Op.unsubscribe e cid => (handleUnsubscribe e cid st).1
  | Op.send urlTest cid req deliver fault => (processSend urlTest cid req deliver fault st).1
  | Op.preview urlTest cid req => (handlePreview urlTest cid req st).1
  | Op.deleteNotification cid nid => (handleDeleteNotification cid nid st).1

/-- A fresh store: an arbitrary client table (clients are managed by
routes outside this embedding and only read here), no subscriptions, no
notifications. -/
def initState (clients : List Client) : ServerState :=
  { clients := clients
    subscriptions := []
    notifications := []
    nextSubscriptionId := 0
    nextNotificationId := 0 }

/-- The store reached by a sequence of operations from a fresh store. -/
def runOps (clients : List Client) (ops : List Op) : ServerState :=
  ops.foldl applyOp (initState clients)

/-! ### Invariant predicates -/

/-- Count bookkeeping of one notification record. -/
def countsOk (n : NotificationRec) : Prop :=
  n.successCount + n.failureCount ≤ n.recipientCount

/-- Count bookkeeping of every stored notification. -/
def notificationsOk (st : ServerState) : Prop :=
  ∀ n ∈ st.notifications, countsOk n

/-- The `(clientId, endpoint)` pair of a stored subscription — the key of
the unique compound index. -/
def subPair (r : PushSubscriptionRec) : Nat × String :=
  (r.clientId, r.subscription.endpoint)

/-- Two subscription records collide when they share the
`(clientId, endpoint)` pair. -/
def samePair (a b : PushSubscriptionRec) : Prop :=
  subPair a = subPair b

instance instDecidableSamePair (a b : PushSubscriptionRec) :
    Decidable (samePair a b) :=
  decidable_of_iff (subPair a = subPair b) Iff.rfl

/-- No two stored subscriptions share the `(clientId, endpoint)` pair
(the unique compound index of the `PushSubscription` schema). -/
def subsUnique (st : ServerState) : Prop :=
  st.subscriptions.Pairwise (fun a b => ¬ samePair a b)

instance instDecidableSubsUnique (st : ServerState) : Decidable (subsUnique st) :=
  decidable_of_iff
    (st.subscriptions.Pairwise (fun a b => ¬ samePair a b)) Iff.rfl

/-- Auxiliary id discipline of the store: subscription ids are pairwise
distinct and below the fresh-id counter. -/
def subsIdsOk (st : ServerState) : Prop :=
  st.subscriptions.Pairwise (fun a b => a.id ≠ b.id) ∧
    ∀ r ∈ st.subscriptions, r.id < st.nextSubscriptionId

/-- The conjunction of store invariants shown to hold in every reachable
store. -/
def storeInv (st : ServerState) : Prop :=
  notificationsOk st ∧ subsUnique st ∧ subsIdsOk st

/-! ### Concrete fixtures for witnesses and counterexamples -/

/-- An active tenant. -/
def clientA : Client :=
  { id := 1, clientName := "Acme", brandLogoUrl := none, status := "active" }

/-- A stored subscription of tenant 1 at endpoint `ep1`. -/
def subA : PushSubscriptionRec :=
  { id := 10, clientId := 1
    subscription := { endpoint := "https://push.example/ep1", p256dh := "p1", auth := "a1" }
    metadata := { domain := "unknown", userAgent := "unknown" } }

/-- A second stored subscription of tenant 1 at endpoint `ep2`. -/
def subB : PushSubscriptionRec :=
  { id := 11, clientId := 1
    subscription := { endpoint := "https://push.example/ep2", p256dh := "p2", auth := "a2" }
    metadata := { domain := "unknown", userAgent := "unknown" } }

/-- Store with one active tenant and one subscription. -/
def stA : ServerState :=
  { clients := [clientA], subscriptions := [subA], notifications := []
    nextSubscriptionId := 20, nextNotificationId := 0 }

/-- Store with one active tenant and two subscriptions. -/
def stAB : ServerState :=
  { clients := [clientA], subscriptions := [subA, subB], notifications := []
    nextSubscriptionId := 20, nextNotificationId := 0 }

/-- Store with one active tenant and no subscriptions. -/
def stEmptySubs : ServerState :=
  { clients := [clientA], subscriptions := [], notifications := []
    nextSubscriptionId := 20, nextNotificationId := 0 }

/-- The pending record created by sending `reqHello` against `stA`. -/
def notifA : NotificationRec :=
  { id := 0, clientId := 1, title := "Hello", content := "World"
    promoImageUrl := none, status := NStatus.pending, recipientCount := 1
    successCount := 0, failureCount := 0, errorMessage := none }

/-- The store `stA` right after the pending record was saved. -/
def stAN : ServerState :=
  { clients := [clientA], subscriptions := [subA], notifications := [notifA]
    nextSubscriptionId := 20, nextNotificationId := 1 }

/-- A dispatch-time store in which tenant 1 has gained subscription `subB`
after the snapshot `[subA]` was read and the pending record saved. -/
def stABN : ServerState :=
  { clients := [clientA], subscriptions := [subA, subB], notifications := [notifA]
    nextSubscriptionId := 20, nextNotificationId := 1 }

/-- A well-formed send request. -/
def reqHello : SendRequest :=
  { title := some "Hello", content := some "World", promoImageUrl := none }

/-- A send request whose title is 101 repetitions of the letter a. -/
def reqLongTitle : SendRequest :=
  { title := some (String.mk (List.replicate 101 (Char.ofNat 97)))
    content := some "World", promoImageUrl := none }

/-- The dispatch job captured when `reqHello` is sent against `stA`. -/
def jobA : DispatchJob := { notification := notifA, subscriptions := [subA] }

/-- The URL regex oracle accepting everything. -/
def urlTrue : String → Bool := fun _ => true

/-- Delivery oracle: every push succeeds. -/
def deliverOk : PushSubscriptionRec → DeliveryResult := fun _ => DeliveryResult.ok

/-- Delivery oracle: `subA` (id 10) gets a permanent 410, every other
subscription a transient 500. -/
def deliverMixed : PushSubscriptionRec → DeliveryResult := fun s =>
  if s.id = 10 then DeliveryResult.err (some 410) else DeliveryResult.err (some 500)

/-- Delivery oracle: the push library throws without an HTTP status (as it
does when VAPID keys were never configured). -/
def deliverLibErr : PushSubscriptionRec → DeliveryResult := fun _ => DeliveryResult.err none

/-- A well-formed subscription payload at `subA`'s endpoint carrying
fresh keys. -/
def subPayloadA : SubPayload :=
  { endpoint := some "https://push.example/ep1"
    keys := some { p256dh := some "p1new", auth := some "a1new" } }

/-- A well-formed subscription request for tenant 1 at `subA`'s endpoint. -/
def reqSub : SubscribeRequest :=
  { subscription := some subPayloadA, clientId := some 1, domain := none }

/-- A `keys` object whose `auth` member is missing. -/
def keysNoAuth : KeysPayload := { p256dh := some "p3", auth := none }

/-- A subscription payload whose `keys.auth` is missing. -/
def subPayloadNoAuth : SubPayload :=
  { endpoint := some "https://push.example/ep3", keys := some keysNoAuth }

/-- A subscription request whose payload lacks `keys.auth`. -/
def reqSubNoAuth : SubscribeRequest :=
  { subscription := some subPayloadNoAuth, clientId := some 1, domain := none }

/-! ### Lemmas about the fan-out -/

theorem fanout_success_eq (deliver : PushSubscriptionRec → DeliveryResult)
    (subs : List PushSubscriptionRec) :
    (fanout deliver subs).successCount
      = subs.countP (fun t => deliver t == DeliveryResult.ok) := by
  induction subs with
  | nil => rfl
  | cons sub rest ih =>
    rw [List.countP_cons]
    simp only [fanout]
    cases h : deliver sub with
    | ok => simp [h, ih]
    | err c =>
      by_cases hc : (c == some 410 || c == some 404) = true
      · simp [h, hc, ih]
      · simp [h, hc, ih]

theorem fanout_failure_eq (deliver : PushSubscriptionRec → DeliveryResult)
    (subs : List PushSubscriptionRec) :
    (fanout deliver subs).failureCount
      = subs.countP (fun t => !(deliver t == DeliveryResult.ok)) := by
  induction subs with
  | nil => rfl
  | cons sub rest ih =>
    rw [List.countP_cons]
    simp only [fanout]
    cases h : deliver sub with
    | ok => simp [h, ih]
    | err c =>
      by_cases hc : (c == some 410 || c == some 404) = true
      · simp [h, hc, ih]
      · simp [h, hc, ih]

theorem fanout_sum (deliver : PushSubscriptionRec → DeliveryResult)
    (subs : List PushSubscriptionRec) :
    (fanout deliver subs).successCount + (fanout deliver subs).failureCount
      = subs.length := by
  induction subs with
  | nil => rfl
  | cons sub rest ih =>
    simp only [fanout, List.length_cons]
    cases h : deliver sub with
    | ok => simp [h]; omega
    | err c =>
      by_cases hc : (c == some 410 || c == some 404) = true
      · simp [h, hc]; omega
      · simp [h, hc]; omega

theorem fanout_invalid_eq (deliver : PushSubscriptionRec → DeliveryResult)
    (subs : List PushSubscriptionRec) :
    (fanout deliver subs).invalidSubscriptions
      = (subs.filter (fun t => permanentFailure (deliver t))).map
          PushSubscriptionRec.id := by
  induction subs with
  | nil => rfl
  | cons sub rest ih =>
    simp only [fanout, List.filter_cons]
    cases h : deliver sub with
    | ok => simp [permanentFailure, h, ih]
    | err c =>
      by_cases hc : (c == some 410 || c == some 404) = true
      · simp [permanentFailure, h, hc, ih]
      · simp [permanentFailure, h, hc, ih]

theorem invalid_contains_iff (deliver : PushSubscriptionRec → DeliveryResult)
    (subs : List PushSubscriptionRec) (sid : Nat) :
    ((fanout deliver subs).invalidSubscriptions.contains sid = true) ↔
      ∃ t, t ∈ subs ∧ t.id = sid ∧ permanentFailure (deliver t) = true := by
  rw [fanout_invalid_eq]
  simp only [List.elem_iff, List.mem_map, List.mem_filter]
  constructor
  · rintro ⟨t, ⟨htmem, htperm⟩, htid⟩
    exact ⟨t, htmem, htid, htperm⟩
  · rintro ⟨t, htmem, htid, htperm⟩
    exact ⟨t, ⟨htmem, htperm⟩, htid⟩

/-! ### Lemmas about record finalization and pruning -/

theorem updateNotification_subscriptions (st : ServerState) (n : NotificationRec) :
    (updateNotification st n).subscriptions = st.subscriptions := rfl

theorem length_updateNotification (st : ServerState) (n : NotificationRec) :
    (updateNotification st n).notifications.length = st.notifications.length := by
  simp [updateNotification]

theorem mem_updateNotification {st : ServerState} {n m : NotificationRec}
    (hm : m ∈ (updateNotification st n).notifications) :
    m = n ∨ (m ∈ st.notifications ∧ m.id ≠ n.id) := by
  simp only [updateNotification, List.mem_map] at hm
  obtain ⟨m0, hm0, hEq⟩ := hm
  by_cases h : m0.id = n.id
  · left; rw [← hEq, if_pos h]
  · right
    rw [← hEq, if_neg h]
    exact ⟨hm0, h⟩

theorem updateNotification_eq_of_id {st : ServerState} {n m : NotificationRec}
    (hm : m ∈ (updateNotification st n).notifications) (hid : m.id = n.id) : m = n := by
  rcases mem_updateNotification hm with h | ⟨_, hne⟩
  · exact h
  · exact absurd hid hne

theorem notificationsOk_updateNotification {st : ServerState} {n : NotificationRec}
    (hst : notificationsOk st) (hn : countsOk n) :
    notificationsOk (updateNotification st n) := by
  intro m hm
  rcases mem_updateNotification hm with rfl | ⟨hmem, _⟩
  · exact hn
  · exact hst m hmem

theorem pruneInvalid_notifications (st : ServerState) (invalid : List Nat) :
    (pruneInvalid st invalid).notifications = st.notifications := by
  unfold pruneInvalid; split <;> rfl

theorem pruneInvalid_clients (st : ServerState) (invalid : List Nat) :
    (pruneInvalid st invalid).clients = st.clients := by
  unfold pruneInvalid; split <;> rfl

theorem pruneInvalid_nextSubscriptionId (st : ServerState) (invalid : List Nat) :
    (pruneInvalid st invalid).nextSubscriptionId = st.nextSubscriptionId := by
  unfold pruneInvalid; split <;> rfl

theorem pruneInvalid_sublist (st : ServerState) (invalid : List Nat) :
    (pruneInvalid st invalid).subscriptions.Sublist st.subscriptions := by
  unfold pruneInvalid; split
  · exact List.Sublist.refl _
  · exact List.filter_sublist _

theorem mem_pruneInvalid_of {st : ServerState} {invalid : List Nat}
    {s : PushSubscriptionRec} (hs : s ∈ st.subscriptions)
    (hnot : invalid.contains s.id = false) :
    s ∈ (pruneInvalid st invalid).subscriptions := by
  unfold pruneInvalid; split
  · exact hs
  · simp at hnot
    exact List.mem_filter.mpr ⟨hs, by simp [hnot]⟩

theorem not_mem_pruneInvalid {st : ServerState} {invalid : List Nat}
    {s : PushSubscriptionRec} (hin : invalid.contains s.id = true) :
    s ∉ (pruneInvalid st invalid).subscriptions := by
  unfold pruneInvalid; split
  · next h =>
    rw [List.length_eq_zero] at h
    subst h
    simp at hin
  · simp at hin
    intro hmem
    rcases List.mem_filter.mp hmem with ⟨_, hp⟩
    simp at hp
    exact hp hin

theorem sendNotifications_none_eq (st : ServerState) (n : NotificationRec)
    (subs : List PushSubscriptionRec) (deliver : PushSubscriptionRec → DeliveryResult) :
    sendNotifications st n subs deliver none
      = updateNotification (pruneInvalid st (fanout deliver subs).invalidSubscriptions)
          (markAsSent n subs.length (fanout deliver subs).successCount
            (fanout deliver subs).failureCount) := rfl

theorem sendNotifications_atFinalize_eq (st : ServerState) (n : NotificationRec)
    (subs : List PushSubscriptionRec) (deliver : PushSubscriptionRec → DeliveryResult)
    (msg : String) :
    sendNotifications st n subs deliver (some (EngineFault.atFinalize msg))
      = updateNotification (pruneInvalid st (fanout deliver subs).invalidSubscriptions)
          (markAsFailed
            (markAsSent n subs.length (fanout deliver subs).successCount
              (fanout deliver subs).failureCount) msg) := rfl

/-! ### Lemmas about the route handlers -/

theorem handlePreview_fst (urlTest : String → Bool) (clientId : Nat)
    (req : SendRequest) (st : ServerState) :
    (handlePreview urlTest clientId req st).1 = st := by
  unfold handlePreview
  dsimp only
  repeat' split
  all_goals rfl

theorem handleSend_spec (urlTest : String → Bool) (clientId : Nat)
    (req : SendRequest) (st : ServerState) :
    ((handleSend urlTest clientId req st).2.2 = none ∧
      (handleSend urlTest clientId req st).1 = st ∧
      ∀ i rc, (handleSend urlTest clientId req st).2.1 ≠ SendResponse.accepted i rc) ∨
    (∃ job,
      (handleSend urlTest clientId req st).2.2 = some job ∧
      (handleSend urlTest clientId req st).1
        = { st with notifications := st.notifications ++ [job.notification]
                    nextNotificationId := st.nextNotificationId + 1 } ∧
      (handleSend urlTest clientId req st).2.1
        = SendResponse.accepted st.nextNotificationId job.subscriptions.length ∧
      (validateNotificationContent req.title req.content).isValid = true ∧
      job.subscriptions = subsForClient st clientId ∧
      job.subscriptions.length ≠ 0 ∧
      job.notification.id = st.nextNotificationId ∧
      job.notification.recipientCount = job.subscriptions.length ∧
      job.notification.successCount = 0 ∧
      job.notification.failureCount = 0 ∧
      job.notification.status = NStatus.pending) := by
  unfold handleSend
  dsimp only
  split
  · exact Or.inl ⟨rfl, rfl, by intro i rc hc; cases hc⟩
  · next hvalid =>
    split
    · exact Or.inl ⟨rfl, rfl, by intro i rc hc; cases hc⟩
    · split
      · exact Or.inl ⟨rfl, rfl, by intro i rc hc; cases hc⟩
      · split
        · exact Or.inl ⟨rfl, rfl, by intro i rc hc; cases hc⟩
        · split
          · exact Or.inl ⟨rfl, rfl, by intro i rc hc; cases hc⟩
          · next hlen =>
            refine Or.inr ⟨_, rfl, ?_, ?_, ?_, ?_, ?_, ?_, ?_, ?_, ?_, ?_⟩
            · rfl
            · rfl
            · simpa using hvalid
            · rfl
            · exact hlen
            · rfl
            · rfl
            · rfl
            · rfl
            · rfl

theorem handleSend_some {urlTest : String → Bool} {clientId : Nat}
    {req : SendRequest} {st st1 : ServerState} {resp : SendResponse}
    {job : DispatchJob}
    (h : handleSend urlTest clientId req st = (st1, resp, some job)) :
    (validateNotificationContent req.title req.content).isValid = true ∧
    job.subscriptions = subsForClient st clientId ∧
    job.subscriptions.length ≠ 0 ∧
    job.notification.id = st.nextNotificationId ∧
    job.notification.recipientCount = job.subscriptions.length ∧
    job.notification.successCount = 0 ∧
    job.notification.failureCount = 0 ∧
    job.notification.status = NStatus.pending ∧
    st1 = { st with notifications := st.notifications ++ [job.notification]
                    nextNotificationId := st.nextNotificationId + 1 } ∧
    resp = SendResponse.accepted st.nextNotificationId job.subscriptions.length := by
  rcases handleSend_spec urlTest clientId req st with ⟨hnone, _, _⟩ |
    ⟨j, hsome, hst, hresp, p1, p2, p3, p4, p5, p6, p7, p8⟩
  · rw [h] at hnone
    simp at hnone
  · rw [h] at hsome hst hresp
    simp only at hsome hst hresp
    rw [Option.some_inj] at hsome
    subst hsome
    exact ⟨p1, p2, p3, p4, p5, p6, p7, p8, hst, hresp⟩

theorem handleSend_none_state {urlTest : String → Bool} {clientId : Nat}
    {req : SendRequest} {st : ServerState}
    (h : (handleSend urlTest clientId req st).2.2 = none) :
    (handleSend urlTest clientId req st).1 = st := by
  rcases handleSend_spec urlTest clientId req st with ⟨_, hst, _⟩ | ⟨j, hsome, _⟩
  · exact hst
  · rw [h] at hsome
    simp at hsome

theorem processSend_of_some {urlTest : String → Bool} {clientId : Nat}
    {req : SendRequest} {deliver : PushSubscriptionRec → DeliveryResult}
    {fault : Option EngineFault} {st st1 : ServerState} {resp : SendResponse}
    {job : DispatchJob}
    (h : handleSend urlTest clientId req st = (st1, resp, some job)) :
    processSend urlTest clientId req deliver fault st
      = (sendNotifications st1 job.notification job.subscriptions deliver fault, resp) := by
  unfold processSend
  rw [h]

theorem processSend_eq (urlTest : String → Bool) (clientId : Nat) (req : SendRequest)
    (deliver : PushSubscriptionRec → DeliveryResult) (fault : Option EngineFault)
    (st : ServerState) :
    processSend urlTest clientId req deliver fault st
      = match (handleSend urlTest clientId req st).2.2 with
        | none =>
          ((handleSend urlTest clientId req st).1,
            (handleSend urlTest clientId req st).2.1)
        | some job =>
          (sendNotifications (handleSend urlTest clientId req st).1
            job.notification job.subscriptions deliver fault,
            (handleSend urlTest clientId req st).2.1) := by
  unfold processSend
  rcases hE : handleSend urlTest clientId req st with ⟨st1, resp, job⟩
  cases job <;> rfl

theorem processSend_of_some_eq {urlTest : String → Bool} {clientId : Nat}
    {req : SendRequest} {deliver : PushSubscriptionRec → DeliveryResult}
    {fault : Option EngineFault} {st : ServerState} {job : DispatchJob}
    (h : (handleSend urlTest clientId req st).2.2 = some job) :
    processSend urlTest clientId req deliver fault st
      = (sendNotifications (handleSend urlTest clientId req st).1
          job.notification job.subscriptions deliver fault,
          (handleSend urlTest clientId req st).2.1) := by
  rw [processSend_eq, h]

theorem processSend_of_none_eq {urlTest : String → Bool} {clientId : Nat}
    {req : SendRequest} {deliver : PushSubscriptionRec → DeliveryResult}
    {fault : Option EngineFault} {st : ServerState}
    (h : (handleSend urlTest clientId req st).2.2 = none) :
    processSend urlTest clientId req deliver fault st
      = ((handleSend urlTest clientId req st).1,
          (handleSend urlTest clientId req st).2.1) := by
  rw [processSend_eq, h]

/-! ### Lemmas about the subscribe handler -/

theorem replaceSub_id (exId : Nat) (newSub : SubObj) (r : PushSubscriptionRec) :
    (replaceSub exId newSub r).id = r.id := by
  unfold replaceSub
  split <;> rfl

theorem eq_of_mem_of_unique_ids {l : List PushSubscriptionRec}
    (hids : l.Pairwise (fun a b => a.id ≠ b.id)) {a b : PushSubscriptionRec}
    (ha : a ∈ l) (hb : b ∈ l) (hid : a.id = b.id) : a = b := by
  by_contra hne
  exact (hids.forall (by intro x y h e; exact h e.symm) ha hb hne) hid

theorem pairMatch_true_iff {cid : Nat} {ep : String} {r : PushSubscriptionRec} :
    pairMatch cid ep r = true ↔ r.clientId = cid ∧ r.subscription.endpoint = ep := by
  unfold pairMatch
  rw [Bool.and_eq_true, beq_iff_eq, beq_iff_eq]

theorem handleSubscribe_spec (ua : Option String) (req : SubscribeRequest)
    (st : ServerState) :
    ((handleSubscribe ua req st).1 = st) ∨
    (∃ sub cid ex,
      req.subscription = some sub ∧ req.clientId = some cid ∧
      invalidShape sub = false ∧
      (∃ c, findClient st cid = some c ∧ c.status = "active") ∧
      st.subscriptions.find? (pairMatch cid (payloadSubObj sub).endpoint) = some ex ∧
      handleSubscribe ua req st
        = ({ st with
             subscriptions :=
               st.subscriptions.map (replaceSub ex.id (payloadSubObj sub)) },
            SubscribeResponse.updated ex.id)) ∨
    (∃ sub cid md,
      req.subscription = some sub ∧ req.clientId = some cid ∧
      invalidShape sub = false ∧
      (∃ c, findClient st cid = some c ∧ c.status = "active") ∧
      st.subscriptions.find? (pairMatch cid (payloadSubObj sub).endpoint) = none ∧
      handleSubscribe ua req st
        = ({ st with
             subscriptions := st.subscriptions ++
                 [{ id := st.nextSubscriptionId, clientId := cid,
                    subscription := payloadSubObj sub, metadata := md }],
             nextSubscriptionId := st.nextSubscriptionId + 1 },
            SubscribeResponse.created st.nextSubscriptionId)) := by
  unfold handleSubscribe
  dsimp only
  split
  · exact Or.inl rfl
  · exact Or.inl rfl
  · next sub cid hsub hcid =>
    split
    · exact Or.inl rfl
    · next hshape =>
      split
      · exact Or.inl rfl
      · next c hc =>
        split
        · exact Or.inl rfl
        · next hcs =>
          split
          · next ex hfind =>
            refine Or.inr (Or.inl ⟨sub, cid, ex, hsub, hcid, ?_, ⟨c, hc, ?_⟩,
              hfind, rfl⟩)
            · simpa using hshape
            · simpa using hcs
          · next hfind =>
            refine Or.inr (Or.inr ⟨sub, cid, _, hsub, hcid, ?_, ⟨c, hc, ?_⟩,
              hfind, rfl⟩)
            · simpa using hshape
            · simpa using hcs

theorem handleSubscribe_state (ua : Option String) (req : SubscribeRequest)
    (st : ServerState) :
    (handleSubscribe ua req st).1 = st ∨
    (∃ sub cid ex,
      req.subscription = some sub ∧ req.clientId = some cid ∧
      st.subscriptions.find? (pairMatch cid (payloadSubObj sub).endpoint) = some ex ∧
      (handleSubscribe ua req st).1
        = { st with subscriptions :=
              st.subscriptions.map (replaceSub ex.id (payloadSubObj sub)) }) ∨
    (∃ sub cid md,
      req.subscription = some sub ∧ req.clientId = some cid ∧
      st.subscriptions.find? (pairMatch cid (payloadSubObj sub).endpoint) = none ∧
      (handleSubscribe ua req st).1
        = { st with
            subscriptions := st.subscriptions ++
                [{ id := st.nextSubscriptionId, clientId := cid,
                   subscription := payloadSubObj sub, metadata := md }],
            nextSubscriptionId := st.nextSubscriptionId + 1 }) := by
  rcases handleSubscribe_spec ua req st with h |
    ⟨sub, cid, ex, h1, h2, _, _, h5, h6⟩ | ⟨sub, cid, md, h1, h2, _, _, h5, h6⟩
  · exact Or.inl h
  · exact Or.inr (Or.inl ⟨sub, cid, ex, h1, h2, h5, by rw [h6]⟩)
  · exact Or.inr (Or.inr ⟨sub, cid, md, h1, h2, h5, by rw [h6]⟩)

theorem handleUnsubscribe_state (e : Option String) (cid : Option Nat)
    (st : ServerState) :
    (handleUnsubscribe e cid st).1 = st ∨
    ∃ e0 c0, (handleUnsubscribe e cid st).1
      = { st with subscriptions := st.subscriptions.eraseP (pairMatch c0 e0) } := by
  unfold handleUnsubscribe
  split
  · exact Or.inl rfl
  · exact Or.inl rfl
  · split
    · exact Or.inl rfl
    · split
      · exact Or.inr ⟨_, _, rfl⟩
      · exact Or.inl rfl

theorem handleDeleteNotification_state (cid nid : Nat) (st : ServerState) :
    (handleDeleteNotification cid nid st).1 = st ∨
    (handleDeleteNotification cid nid st).1
      = { st with
          notifications := st.notifications.eraseP
              (fun n => n.id == nid && n.clientId == cid) } := by
  unfold handleDeleteNotification
  split
  · exact Or.inr rfl
  · exact Or.inl rfl

/-! ### Preservation of the store invariants -/

theorem subs_update_preserved {st : ServerState} {cid : Nat} {newSub : SubObj}
    {ex : PushSubscriptionRec}
    (hfind : st.subscriptions.find? (pairMatch cid newSub.endpoint) = some ex)
    (huniq : subsUnique st) (hids : subsIdsOk st) :
    (st.subscriptions.map (replaceSub ex.id newSub)).Pairwise
        (fun a b => ¬ samePair a b) ∧
    (st.subscriptions.map (replaceSub ex.id newSub)).Pairwise
        (fun a b => a.id ≠ b.id) ∧
    ∀ r ∈ st.subscriptions.map (replaceSub ex.id newSub),
      r.id < st.nextSubscriptionId := by
  have hexmem : ex ∈ st.subscriptions := List.mem_of_find?_eq_some hfind
  have hexp : pairMatch cid newSub.endpoint ex = true := List.find?_some hfind
  have hexep : ex.subscription.endpoint = newSub.endpoint :=
    (pairMatch_true_iff.mp hexp).2
  have hpair : ∀ r ∈ st.subscriptions,
      subPair (replaceSub ex.id newSub r) = subPair r := by
    intro r hr
    unfold replaceSub
    by_cases hrid : r.id = ex.id
    · have hrex : r = ex := eq_of_mem_of_unique_ids hids.1 hr hexmem hrid
      subst hrex
      rw [if_pos hrid]
      simp [subPair, hexep]
    · rw [if_neg hrid]
  refine ⟨?_, ?_, ?_⟩
  · rw [List.pairwise_map]
    refine huniq.imp_of_mem ?_
    intro a b ha hb hab hcontra
    exact hab (by rwa [samePair, hpair a ha, hpair b hb] at hcontra)
  · rw [List.pairwise_map]
    refine hids.1.imp ?_
    intro a b hab
    rw [replaceSub_id, replaceSub_id]
    exact hab
  · intro r hr
    rcases List.mem_map.mp hr with ⟨r0, hr0, hEq⟩
    have hre : r.id = r0.id := by rw [← hEq, replaceSub_id]
    rw [hre]
    exact hids.2 r0 hr0

theorem subs_create_preserved {st : ServerState} {cid : Nat} {newSub : SubObj}
    {md : Metadata} {newRec : PushSubscriptionRec}
    (hnew : newRec = { id := st.nextSubscriptionId, clientId := cid,
                       subscription := newSub, metadata := md })
    (hfind : st.subscriptions.find? (pairMatch cid newSub.endpoint) = none)
    (huniq : subsUnique st) (hids : subsIdsOk st) :
    (st.subscriptions ++ [newRec]).Pairwise (fun a b => ¬ samePair a b) ∧
    (st.subscriptions ++ [newRec]).Pairwise (fun a b => a.id ≠ b.id) ∧
    ∀ r ∈ st.subscriptions ++ [newRec], r.id < st.nextSubscriptionId + 1 := by
  subst hnew
  have hall : ∀ r ∈ st.subscriptions, ¬ (pairMatch cid newSub.endpoint r = true) :=
    List.find?_eq_none.mp hfind
  refine ⟨?_, ?_, ?_⟩
  · rw [List.pairwise_append]
    refine ⟨huniq, List.pairwise_singleton _ _, ?_⟩
    intro a ha b hb hcontra
    rw [List.mem_singleton] at hb
    subst hb
    have hfields : a.clientId = cid ∧ a.subscription.endpoint = newSub.endpoint :=
      ⟨congrArg Prod.fst hcontra, congrArg Prod.snd hcontra⟩
    exact hall a ha (pairMatch_true_iff.mpr hfields)
  · rw [List.pairwise_append]
    refine ⟨hids.1, List.pairwise_singleton _ _, ?_⟩
    intro a ha b hb
    rw [List.mem_singleton] at hb
    subst hb
    exact Nat.ne_of_lt (hids.2 a ha)
  · intro r hr
    rcases List.mem_append.mp hr with h | h
    · exact Nat.lt_succ_of_lt (hids.2 r h)
    · rw [List.mem_singleton] at h
      subst h
      exact Nat.lt_succ_self _

theorem subsInv_of_sublist {st st2 : ServerState}
    (hsub : st2.subscriptions.Sublist st.subscriptions)
    (hctr : st2.nextSubscriptionId = st.nextSubscriptionId)
    (huniq : subsUnique st) (hids : subsIdsOk st) :
    subsUnique st2 ∧ subsIdsOk st2 := by
  refine ⟨huniq.sublist hsub, hids.1.sublist hsub, ?_⟩
  intro r hr
  rw [hctr]
  exact hids.2 r (hsub.subset hr)

theorem sendNotifications_subscriptions (st : ServerState) (n : NotificationRec)
    (subs : List PushSubscriptionRec) (deliver : PushSubscriptionRec → DeliveryResult)
    (fault : Option EngineFault) :
    (sendNotifications st n subs deliver fault).subscriptions.Sublist
        st.subscriptions ∧
    (sendNotifications st n subs deliver fault).nextSubscriptionId
        = st.nextSubscriptionId := by
  rcases fault with _ | f
  · rw [sendNotifications_none_eq]
    exact ⟨pruneInvalid_sublist _ _, pruneInvalid_nextSubscriptionId _ _⟩
  · cases f with
    | beforeFanout msg => exact ⟨List.Sublist.refl _, rfl⟩
    | atPrune msg => exact ⟨List.Sublist.refl _, rfl⟩
    | atFinalize msg =>
      rw [sendNotifications_atFinalize_eq]
      exact ⟨pruneInvalid_sublist _ _, pruneInvalid_nextSubscriptionId _ _⟩

theorem notificationsOk_sendNotifications {st : ServerState} {n : NotificationRec}
    {subs : List PushSubscriptionRec} {deliver : PushSubscriptionRec → DeliveryResult}
    {fault : Option EngineFault}
    (hst : notificationsOk st) (hn : countsOk n) :
    notificationsOk (sendNotifications st n subs deliver fault) := by
  have hstP : ∀ inv, notificationsOk (pruneInvalid st inv) := by
    intro inv m hm
    rw [pruneInvalid_notifications] at hm
    exact hst m hm
  rcases fault with _ | f
  · refine notificationsOk_updateNotification (hstP _) ?_
    show (fanout deliver subs).successCount + (fanout deliver subs).failureCount
        ≤ subs.length
    rw [fanout_sum]
  · cases f with
    | beforeFanout msg => exact notificationsOk_updateNotification hst hn
    | atPrune msg => exact notificationsOk_updateNotification hst hn
    | atFinalize msg =>
      refine notificationsOk_updateNotification (hstP _) ?_
      show (fanout deliver subs).successCount + (fanout deliver subs).failureCount
          ≤ subs.length
      rw [fanout_sum]

theorem storeInv_applyOp {st : ServerState} (h : storeInv st) (op : Op) :
    storeInv (applyOp st op) := by
  obtain ⟨hnotif, huniq, hids⟩ := h
  cases op with
  | subscribe ua req =>
    show storeInv (handleSubscribe ua req st).1
    rcases handleSubscribe_state ua req st with hst |
      ⟨sub, cid, ex, _, _, hfind, hst⟩ | ⟨sub, cid, md, _, _, hfind, hst⟩
    · rw [hst]; exact ⟨hnotif, huniq, hids⟩
    · rw [hst]
      obtain ⟨w1, w2, w3⟩ := subs_update_preserved hfind huniq hids
      exact ⟨hnotif, w1, w2, w3⟩
    · rw [hst]
      obtain ⟨w1, w2, w3⟩ := subs_create_preserved rfl hfind huniq hids
      exact ⟨hnotif, w1, w2, w3⟩
  | unsubscribe e cid =>
    show storeInv (handleUnsubscribe e cid st).1
    rcases handleUnsubscribe_state e cid st with hst | ⟨e0, c0, hst⟩
    · rw [hst]; exact ⟨hnotif, huniq, hids⟩
    · rw [hst]
      obtain ⟨w1, w2, w3⟩ := @subsInv_of_sublist st
        { st with subscriptions := st.subscriptions.eraseP (pairMatch c0 e0) }
        (List.eraseP_sublist _) rfl huniq hids
      exact ⟨hnotif, w1, w2, w3⟩
  | send urlTest cid req deliver fault =>
    show storeInv (processSend urlTest cid req deliver fault st).1
    rcases handleSend_spec urlTest cid req st with ⟨hnone, hst, _⟩ |
      ⟨job, hsome, hst1, _, _, _, _, _, _, hsc, hfc, _⟩
    · rw [processSend_of_none_eq hnone, hst]
      exact ⟨hnotif, huniq, hids⟩
    · rw [processSend_of_some_eq hsome, hst1]
      have hnotif1 : notificationsOk
          { st with notifications := st.notifications ++ [job.notification]
                    nextNotificationId := st.nextNotificationId + 1 } := by
        intro m hm
        rcases List.mem_append.mp hm with hmem | hmem
        · exact hnotif m hmem
        · rw [List.mem_singleton] at hmem
          subst hmem
          show job.notification.successCount + job.notification.failureCount
              ≤ job.notification.recipientCount
          rw [hsc, hfc]
          exact Nat.zero_le _
      have hcnt : countsOk job.notification := by
        show job.notification.successCount + job.notification.failureCount
            ≤ job.notification.recipientCount
        rw [hsc, hfc]
        exact Nat.zero_le _
      obtain ⟨wsub, wctr⟩ := sendNotifications_subscriptions
        { st with notifications := st.notifications ++ [job.notification]
                  nextNotificationId := st.nextNotificationId + 1 }
        job.notification job.subscriptions deliver fault
      obtain ⟨w1, w2⟩ := subsInv_of_sublist wsub wctr huniq hids
      exact ⟨notificationsOk_sendNotifications hnotif1 hcnt, w1, w2⟩
  | preview urlTest cid req =>
    show storeInv (handlePreview urlTest cid req st).1
    rw [handlePreview_fst]
    exact ⟨hnotif, huniq, hids⟩
  | deleteNotification cid nid =>
    show storeInv (handleDeleteNotification cid nid st).1
    rcases handleDeleteNotification_state cid nid st with hst | hst
    · rw [hst]; exact ⟨hnotif, huniq, hids⟩
    · rw [hst]
      refine ⟨?_, huniq, hids⟩
      intro m hm
      exact hnotif m ((List.eraseP_sublist _).subset hm)

/-! ### Upsert behaviour: in-place update, uniqueness, idempotence -/

theorem find?_map_eq {l : List PushSubscriptionRec}
    {f : PushSubscriptionRec → PushSubscriptionRec} {p : PushSubscriptionRec → Bool}
    (h : ∀ r ∈ l, p (f r) = p r) : (l.map f).find? p = (l.find? p).map f := by
  induction l with
  | nil => rfl
  | cons a l ih =>
    rw [List.map_cons]
    by_cases hpa : p a = true
    · rw [List.find?_cons_of_pos _ (by rw [h a (List.mem_cons_self a l)]; exact hpa),
        List.find?_cons_of_pos _ hpa]
      rfl
    · rw [List.find?_cons_of_neg _ (by rw [h a (List.mem_cons_self a l)]; simpa using hpa),
        List.find?_cons_of_neg _ hpa]
      exact ih (fun r hr => h r (List.mem_cons_of_mem a hr))

theorem countP_le_one_of_pairwise {l : List PushSubscriptionRec}
    {p : PushSubscriptionRec → Bool}
    (h : l.Pairwise (fun a b => ¬(p a = true ∧ p b = true))) : l.countP p ≤ 1 := by
  induction l with
  | nil => simp
  | cons a l ih =>
    rw [List.countP_cons]
    rcases List.pairwise_cons.mp h with ⟨ha, hl⟩
    by_cases hpa : p a = true
    · have hzero : l.countP p = 0 :=
        List.countP_eq_zero.mpr (fun b hb hpb => ha b hb ⟨hpa, hpb⟩)
      rw [hzero, if_pos hpa]
    · rw [if_neg hpa]
      have := ih hl
      omega

theorem pairwise_not_both_match {st : ServerState} (huniq : subsUnique st)
    (cid : Nat) (ep : String) :
    st.subscriptions.Pairwise
      (fun a b => ¬(pairMatch cid ep a = true ∧ pairMatch cid ep b = true)) := by
  refine List.Pairwise.imp ?_ huniq
  intro a b hab hcon
  rcases hcon with ⟨hpa, hpb⟩
  rcases pairMatch_true_iff.mp hpa with ⟨ha1, ha2⟩
  rcases pairMatch_true_iff.mp hpb with ⟨hb1, hb2⟩
  refine hab ?_
  show subPair a = subPair b
  show (a.clientId, a.subscription.endpoint) = (b.clientId, b.subscription.endpoint)
  rw [ha1, ha2, hb1, hb2]

theorem pairMatch_replaceSub {l : List PushSubscriptionRec} {cid : Nat}
    {newSub : SubObj} {ex : PushSubscriptionRec}
    (hfind : l.find? (pairMatch cid newSub.endpoint) = some ex)
    (hids : l.Pairwise (fun a b => a.id ≠ b.id)) :
    ∀ r ∈ l, pairMatch cid newSub.endpoint (replaceSub ex.id newSub r)
      = pairMatch cid newSub.endpoint r := by
  intro r hr
  unfold replaceSub
  by_cases hrid : r.id = ex.id
  · have hrex : r = ex :=
      eq_of_mem_of_unique_ids hids hr (List.mem_of_find?_eq_some hfind) hrid
    subst hrex
    rw [if_pos hrid]
    have hexp : pairMatch cid newSub.endpoint r = true := List.find?_some hfind
    rcases pairMatch_true_iff.mp hexp with ⟨h1, h2⟩
    rw [hexp]
    exact pairMatch_true_iff.mpr ⟨h1, rfl⟩
  · rw [if_neg hrid]

theorem replaceSub_idem (i : Nat) (s : SubObj) (x : PushSubscriptionRec) :
    replaceSub i s (replaceSub i s x) = replaceSub i s x := by
  unfold replaceSub
  by_cases h : x.id = i
  · rw [if_pos h]
    have : ({ x with subscription := s } : PushSubscriptionRec).id = x.id := rfl
    rw [if_pos (this.trans h ▸ rfl : ({ x with subscription := s } :
      PushSubscriptionRec).id = i)]
  · rw [if_neg h, if_neg h]

theorem handleSubscribe_upsert_eq {ua : Option String} {req : SubscribeRequest}
    {st : ServerState} {sub : SubPayload} {cid : Nat}
    (hsub : req.subscription = some sub) (hcid : req.clientId = some cid)
    (hshape : invalidShape sub = false)
    (hclient : ∃ c, findClient st cid = some c ∧ c.status = "active") :
    (∀ ex, st.subscriptions.find? (pairMatch cid (payloadSubObj sub).endpoint)
        = some ex →
      handleSubscribe ua req st
        = ({ st with
             subscriptions :=
               st.subscriptions.map (replaceSub ex.id (payloadSubObj sub)) },
            SubscribeResponse.updated ex.id)) ∧
    (st.subscriptions.find? (pairMatch cid (payloadSubObj sub).endpoint) = none →
      ∃ md, handleSubscribe ua req st
        = ({ st with
             subscriptions := st.subscriptions ++
                 [{ id := st.nextSubscriptionId, clientId := cid,
                    subscription := payloadSubObj sub, metadata := md }],
             nextSubscriptionId := st.nextSubscriptionId + 1 },
            SubscribeResponse.created st.nextSubscriptionId)) := by
  obtain ⟨c, hc, hcs⟩ := hclient
  unfold handleSubscribe
  rw [hsub, hcid]
  dsimp only
  rw [if_neg (show ¬ invalidShape sub = true by
    rw [hshape]; exact Bool.false_ne_true)]
  rw [hc]
  dsimp only
  rw [if_neg (by simp [hcs])]
  constructor
  · intro ex hfind
    rw [hfind]
  · intro hfind
    rw [hfind]
    exact ⟨_, rfl⟩

theorem handleSubscribe_pair_count {ua : Option String} {req : SubscribeRequest}
    {st : ServerState} {sub : SubPayload} {cid : Nat}
    (hsub : req.subscription = some sub) (hcid : req.clientId = some cid)
    (hshape : invalidShape sub = false)
    (hclient : ∃ c, findClient st cid = some c ∧ c.status = "active")
    (huniq : subsUnique st)
    (hids : st.subscriptions.Pairwise (fun a b => a.id ≠ b.id)) :
    (handleSubscribe ua req st).1.subscriptions.countP
      (pairMatch cid (payloadSubObj sub).endpoint) = 1 := by
  obtain ⟨hupd, hcre⟩ := @handleSubscribe_upsert_eq ua req st sub cid
    hsub hcid hshape hclient
  rcases hfind : st.subscriptions.find?
      (pairMatch cid (payloadSubObj sub).endpoint) with _ | ex
  · obtain ⟨md, hEq⟩ := hcre hfind
    rw [hEq]
    show (st.subscriptions ++ [_]).countP _ = 1
    rw [List.countP_append]
    have hzero : st.subscriptions.countP
        (pairMatch cid (payloadSubObj sub).endpoint) = 0 :=
      List.countP_eq_zero.mpr (List.find?_eq_none.mp hfind)
    rw [hzero]
    have hone : pairMatch cid (payloadSubObj sub).endpoint
        { id := st.nextSubscriptionId, clientId := cid,
          subscription := payloadSubObj sub, metadata := md } = true :=
      pairMatch_true_iff.mpr ⟨rfl, rfl⟩
    simp [hone]
  · rw [hupd ex hfind]
    show (st.subscriptions.map _).countP _ = 1
    rw [List.countP_map]
    have hcongr : st.subscriptions.countP
        ((pairMatch cid (payloadSubObj sub).endpoint) ∘
          (replaceSub ex.id (payloadSubObj sub)))
        = st.subscriptions.countP (pairMatch cid (payloadSubObj sub).endpoint) := by
      refine List.countP_congr ?_
      intro r hr
      have := pairMatch_replaceSub hfind hids r hr
      constructor
      · intro hx
        rw [← this]
        exact hx
      · intro hx
        show pairMatch cid (payloadSubObj sub).endpoint
          (replaceSub ex.id (payloadSubObj sub) r) = true
        rw [this]
        exact hx
    rw [hcongr]
    have hle : st.subscriptions.countP
        (pairMatch cid (payloadSubObj sub).endpoint) ≤ 1 :=
      countP_le_one_of_pairwise (pairwise_not_both_match huniq _ _)
    have hge : 0 < st.subscriptions.countP
        (pairMatch cid (payloadSubObj sub).endpoint) :=
      List.countP_pos_iff.mpr
        ⟨ex, List.mem_of_find?_eq_some hfind, List.find?_some hfind⟩
    omega

theorem handleSubscribe_idem (ua : Option String) (req : SubscribeRequest)
    (st : ServerState)
    (hids : st.subscriptions.Pairwise (fun a b => a.id ≠ b.id))
    (hfresh : ∀ r ∈ st.subscriptions, r.id ≠ st.nextSubscriptionId) :
    (handleSubscribe ua req ((handleSubscribe ua req st).1)).1
      = (handleSubscribe ua req st).1 := by
  rcases handleSubscribe_spec ua req st with hst |
    ⟨sub, cid, ex, hsub, hcid, hshape, hclient, hfind, hEq⟩ |
    ⟨sub, cid, md, hsub, hcid, hshape, hclient, hfind, hEq⟩
  · rw [hst]
    exact hst
  · -- first call updated in place
    rw [hEq]
    set newSub : SubObj := payloadSubObj sub with hnewSub
    set st1 : ServerState :=
      { st with subscriptions := st.subscriptions.map (replaceSub ex.id newSub) }
      with hst1
    show (handleSubscribe ua req st1).1 = st1
    have hclient1 : ∃ c, findClient st1 cid = some c ∧ c.status = "active" := hclient
    have hfind1 : st1.subscriptions.find? (pairMatch cid newSub.endpoint)
        = some (replaceSub ex.id newSub ex) := by
      show (st.subscriptions.map (replaceSub ex.id newSub)).find?
          (pairMatch cid newSub.endpoint) = _
      rw [find?_map_eq (pairMatch_replaceSub hfind hids), hfind]
      rfl
    obtain ⟨hupd, _⟩ := @handleSubscribe_upsert_eq ua req st1 sub cid
      hsub hcid hshape hclient1
    rw [hupd _ hfind1]
    show ({ st1 with
            subscriptions := st1.subscriptions.map
                (replaceSub (replaceSub ex.id newSub ex).id newSub) } : ServerState)
        = st1
    have hid2 : (replaceSub ex.id newSub ex).id = ex.id := replaceSub_id _ _ _
    rw [hid2]
    have hmaps : st1.subscriptions.map (replaceSub ex.id newSub)
        = st1.subscriptions := by
      show (st.subscriptions.map (replaceSub ex.id newSub)).map
          (replaceSub ex.id newSub) = st.subscriptions.map (replaceSub ex.id newSub)
      rw [List.map_map]
      exact List.map_congr_left (fun a _ => replaceSub_idem ex.id newSub a)
    rw [hmaps]
  · -- first call created a fresh record
    rw [hEq]
    set newSub : SubObj := payloadSubObj sub with hnewSub
    set newRec : PushSubscriptionRec :=
      { id := st.nextSubscriptionId, clientId := cid,
        subscription := newSub, metadata := md } with hnewRec
    set st1 : ServerState :=
      { st with subscriptions := st.subscriptions ++ [newRec],
                nextSubscriptionId := st.nextSubscriptionId + 1 } with hst1
    show (handleSubscribe ua req st1).1 = st1
    have hclient1 : ∃ c, findClient st1 cid = some c ∧ c.status = "active" := hclient
    have hfind1 : st1.subscriptions.find? (pairMatch cid newSub.endpoint)
        = some newRec := by
      show (st.subscriptions ++ [newRec]).find? (pairMatch cid newSub.endpoint) = _
      rw [List.find?_append, hfind]
      have : pairMatch cid newSub.endpoint newRec = true :=
        pairMatch_true_iff.mpr ⟨rfl, rfl⟩
      rw [List.find?_cons_of_pos _ this]
      rfl
    obtain ⟨hupd, _⟩ := @handleSubscribe_upsert_eq ua req st1 sub cid
      hsub hcid hshape hclient1
    rw [hupd _ hfind1]
    show ({ st1 with
            subscriptions := st1.subscriptions.map
                (replaceSub newRec.id newSub) } : ServerState)
        = st1
    have hmaps : st1.subscriptions.map (replaceSub newRec.id newSub)
        = st1.subscriptions := by
      show (st.subscriptions ++ [newRec]).map (replaceSub newRec.id newSub)
          = st.subscriptions ++ [newRec]
      have hpt : ∀ x ∈ st.subscriptions ++ [newRec],
          replaceSub newRec.id newSub x = x := by
        intro x hx
        rcases List.mem_append.mp hx with hmem | hmem
        · unfold replaceSub
          rw [if_neg]
          show ¬ x.id = newRec.id
          exact hfresh x hmem
        · rw [List.mem_singleton] at hmem
          subst hmem
          unfold replaceSub
          rw [if_pos rfl]
      calc (st.subscriptions ++ [newRec]).map (replaceSub newRec.id newSub)
          = (st.subscriptions ++ [newRec]).map id := List.map_congr_left hpt
        _ = st.subscriptions ++ [newRec] := List.map_id _
    rw [hmaps]

theorem sendNotifications_beforeFanout_eq (st : ServerState) (n : NotificationRec)
    (subs : List PushSubscriptionRec) (deliver : PushSubscriptionRec → DeliveryResult)
    (msg : String) :
    sendNotifications st n subs deliver (some (EngineFault.beforeFanout msg))
      = updateNotification st (markAsFailed n msg) := rfl

theorem sendNotifications_atPrune_eq (st : ServerState) (n : NotificationRec)
    (subs : List PushSubscriptionRec) (deliver : PushSubscriptionRec → DeliveryResult)
    (msg : String) :
    sendNotifications st n subs deliver (some (EngineFault.atPrune msg))
      = updateNotification st (markAsFailed n msg) := rfl

theorem sendNotifications_notifications_length (st : ServerState)
    (n : NotificationRec) (subs : List PushSubscriptionRec)
    (deliver : PushSubscriptionRec → DeliveryResult) (fault : Option EngineFault) :
    (sendNotifications st n subs deliver fault).notifications.length
      = st.notifications.length := by
  rcases fault with _ | f
  · rw [sendNotifications_none_eq, length_updateNotification,
      pruneInvalid_notifications]
  · cases f with
    | beforeFanout msg =>
      rw [sendNotifications_beforeFanout_eq, length_updateNotification]
    | atPrune msg =>
      rw [sendNotifications_atPrune_eq, length_updateNotification]
    | atFinalize msg =>
      rw [sendNotifications_atFinalize_eq, length_updateNotification,
        pruneInvalid_notifications]

theorem handleSend_valid_eq {urlTest : String → Bool} {clientId : Nat}
    {req : SendRequest} {st : ServerState}
    (hvalid : (validateNotificationContent req.title req.content).isValid = true)
    (hpromo : ∃ v, promoStep urlTest req.promoImageUrl = Except.ok v)
    (hclient : ∃ c, findClient st clientId = some c ∧ c.status = "active") :
    (subsForClient st clientId = [] →
      handleSend urlTest clientId req st = (st, SendResponse.noSubscribers, none)) ∧
    (subsForClient st clientId ≠ [] →
      (handleSend urlTest clientId req st).2.1
        = SendResponse.accepted st.nextNotificationId
            (subsForClient st clientId).length ∧
      (handleSend urlTest clientId req st).1.notifications.length
        = st.notifications.length + 1 ∧
      ∃ job, (handleSend urlTest clientId req st).2.2 = some job) := by
  obtain ⟨v, hp⟩ := hpromo
  obtain ⟨c, hc, hcs⟩ := hclient
  unfold handleSend
  dsimp only
  rw [if_neg (show ¬(!(validateNotificationContent req.title req.content).isValid)
      = true by rw [hvalid]; simp)]
  rw [hp]
  dsimp only
  rw [hc]
  dsimp only
  rw [if_neg (by simp [hcs])]
  constructor
  · intro hempty
    rw [hempty]
    rfl
  · intro hne
    rw [if_neg (show ¬(subsForClient st clientId).length = 0 from
      fun h => hne (List.length_eq_zero.mp h))]
    refine ⟨rfl, ?_, ⟨_, rfl⟩⟩
    simp

theorem validateStringLength_oversize {s fieldName : String}
    {minLength maxLength : Nat} (hlen : maxLength < (sanitizeString s).length)
    (hmin : minLength ≤ (sanitizeString s).length) :
    (validateStringLength (some s) fieldName minLength maxLength).isValid = false := by
  unfold validateStringLength
  dsimp only
  by_cases hs : s = ""
  · exfalso
    subst hs
    rw [show sanitizeString "" = "" from rfl] at hlen
    simp at hlen
  · rw [if_neg hs, if_neg (by omega : ¬ (sanitizeString s).length < minLength),
      if_pos hlen]

theorem validateNotificationContent_oversize {title content : Option String}
    (hover : (∃ t, title = some t ∧ 100 < (sanitizeString t).length) ∨
             (∃ c0, content = some c0 ∧ 500 < (sanitizeString c0).length)) :
    (validateNotificationContent title content).isValid = false ∧
    (validateNotificationContent title content).errors ≠ [] := by
  have key : (validateNotificationContent title content).errors ≠ [] := by
    unfold validateNotificationContent
    dsimp only
    rcases hover with ⟨t, ht, hlen⟩ | ⟨c0, hc, hlen⟩
    · subst ht
      rw [validateStringLength_oversize hlen (by omega)]
      simp
    · subst hc
      rw [validateStringLength_oversize hlen (by omega)]
      simp
  refine ⟨?_, key⟩
  have hlen0 : (validateNotificationContent title content).errors.length ≠ 0 :=
    fun h => key (List.length_eq_zero.mp h)
  show decide ((validateNotificationContent title content).errors.length = 0) = false
  exact decide_eq_false hlen0

theorem handleSend_invalid {urlTest : String → Bool} {clientId : Nat}
    {req : SendRequest} {st : ServerState}
    (h : (validateNotificationContent req.title req.content).isValid = false) :
    handleSend urlTest clientId req st
      = (st, SendResponse.validationFailed
          (validateNotificationContent req.title req.content).errors, none) := by
  unfold handleSend
  dsimp only
  rw [if_pos (show (!(validateNotificationContent req.title req.content).isValid)
      = true by rw [h]; rfl)]

theorem invalidShape_of_missing {sub : SubPayload}
    (h : sub.endpoint = none ∨ sub.keys = none ∨
      ∃ k, sub.keys = some k ∧ (k.p256dh = none ∨ k.auth = none)) :
    invalidShape sub = true := by
  unfold invalidShape
  rcases h with h | h | ⟨k, hk, hh⟩
  · simp [h, strFalsy]
  · rw [h]
    simp
  · rw [hk]
    rcases hh with h1 | h1 <;> simp [h1, strFalsy]

theorem handleSubscribe_invalid {ua : Option String} {req : SubscribeRequest}
    {st : ServerState}
    (hmiss : req.subscription = none ∨
      ∃ sub, req.subscription = some sub ∧ invalidShape sub = true) :
    ((handleSubscribe ua req st).1 = st) ∧
    ((handleSubscribe ua req st).2 = SubscribeResponse.missingFields ∨
      (handleSubscribe ua req st).2 = SubscribeResponse.invalidSubscription) := by
  unfold handleSubscribe
  dsimp only
  rcases hmiss with hnone | ⟨sub, hsub, hshape⟩
  · rw [hnone]
    exact ⟨rfl, Or.inl rfl⟩
  · rw [hsub]
    cases hcid : req.clientId with
    | none => exact ⟨rfl, Or.inl rfl⟩
    | some cid =>
      dsimp only
      rw [if_pos hshape]
      exact ⟨rfl, Or.inr rfl⟩

theorem storeInv_runOps (clients : List Client) (ops : List Op) :
    storeInv (runOps clients ops) := by
  have hinit : storeInv (initState clients) := by
    refine ⟨?_, ?_, ?_, ?_⟩
    · intro n hn
      simp [initState] at hn
    · exact List.Pairwise.nil
    · exact List.Pairwise.nil
    · intro r hr
      simp [initState] at hr
  unfold runOps
  have h : ∀ st, storeInv st → storeInv (List.foldl applyOp st ops) := by
    induction ops with
    | nil => intro st hstv; simpa using hstv
    | cons op ops ih =>
      intro st hstv
      rw [List.foldl_cons]
      exact ih _ (storeInv_applyOp hstv op)
  exact h _ hinit


/-! ### The claims -/

/-- C1: for every dispatch whose fan-out completes (no engine fault), each
subscription of the snapshot contributes exactly one increment to exactly
one of the two counters — `successCount` counts exactly the successful
deliveries, `failureCount` exactly the failed ones, their sum equals the
snapshot length, and the finalized record's `recipientCount` is that same
snapshot length (the argument passed to `markAsSent`); moreover every
notification in every reachable store satisfies
`successCount + failureCount ≤ recipientCount`. -/
theorem sent_counts_conserved :
    (∀ (st : ServerState) (n : NotificationRec) (subs : List PushSubscriptionRec)
        (deliver : PushSubscriptionRec → DeliveryResult),
      ∀ m ∈ (sendNotifications st n subs deliver none).notifications,
        m.id = n.id →
          m.status = NStatus.sent ∧
          m.successCount = subs.countP (fun t => deliver t == DeliveryResult.ok) ∧
          m.failureCount = subs.countP (fun t => !(deliver t == DeliveryResult.ok)) ∧
          m.successCount + m.failureCount = subs.length ∧
          m.recipientCount = subs.length) ∧
    (∀ (clients : List Client) (ops : List Op),
      notificationsOk (runOps clients ops)) := by
  constructor
  · intro st n subs deliver m hm hid
    rw [sendNotifications_none_eq] at hm
    have hmeq : m = markAsSent n subs.length (fanout deliver subs).successCount
        (fanout deliver subs).failureCount :=
      updateNotification_eq_of_id hm hid
    subst hmeq
    refine ⟨rfl, ?_, ?_, ?_, rfl⟩
    · exact fanout_success_eq deliver subs
    · exact fanout_failure_eq deliver subs
    · exact fanout_sum deliver subs
  · intro clients ops
    exact (storeInv_runOps clients ops).1

/-- Witness for C1: a one-subscriber dispatch with a successful delivery
finalizes the record as `sent` with counts 1 and 0, and the count
invariant holds in a reachable store. -/
theorem sent_counts_conserved_witness :
    ((markAsSent notifA 1 1 0)
        ∈ (sendNotifications stAN notifA [subA] deliverOk none).notifications ∧
      (markAsSent notifA 1 1 0).id = notifA.id) ∧
    ((markAsSent notifA 1 1 0).status = NStatus.sent ∧
      (markAsSent notifA 1 1 0).successCount
        = [subA].countP (fun t => deliverOk t == DeliveryResult.ok) ∧
      (markAsSent notifA 1 1 0).failureCount
        = [subA].countP (fun t => !(deliverOk t == DeliveryResult.ok)) ∧
      (markAsSent notifA 1 1 0).successCount + (markAsSent notifA 1 1 0).failureCount
        = [subA].length ∧
      (markAsSent notifA 1 1 0).recipientCount = [subA].length) ∧
    notificationsOk (runOps [clientA] [Op.subscribe none reqSub]) :=
  ⟨⟨by decide, by decide⟩,
    sent_counts_conserved.1 stAN notifA [subA] deliverOk
      (markAsSent notifA 1 1 0) (by decide) (by decide),
    sent_counts_conserved.2 [clientA] [Op.subscribe none reqSub]⟩

/-- C2: in one completed dispatch, per-subscriber failures are classified
by HTTP status: a delivery error with status 410 or 404 marks the
subscription, and after all deliveries settle the marked ids (exactly
those of the snapshot members with a permanent failure) are removed in one
batch delete, so such a subscription is gone from the store; a failure
with any other status (or no HTTP status) leaves the subscription in the
store, while every failed delivery — permanent or not — counts toward the
finalized record's `failureCount`. -/
theorem delivery_classification_prune :
    ∀ (st : ServerState) (n : NotificationRec) (subs : List PushSubscriptionRec)
      (deliver : PushSubscriptionRec → DeliveryResult),
      (∀ s ∈ st.subscriptions, s ∈ subs → permanentFailure (deliver s) = true →
        s ∉ (sendNotifications st n subs deliver none).subscriptions) ∧
      (∀ s ∈ st.subscriptions,
        (∀ t ∈ subs, t.id = s.id → permanentFailure (deliver t) = false) →
        s ∈ (sendNotifications st n subs deliver none).subscriptions) ∧
      ((fanout deliver subs).invalidSubscriptions
        = (subs.filter (fun t => permanentFailure (deliver t))).map
            PushSubscriptionRec.id) ∧
      (∀ m ∈ (sendNotifications st n subs deliver none).notifications,
        m.id = n.id →
          m.failureCount = subs.countP (fun t => !(deliver t == DeliveryResult.ok))) := by
  intro st n subs deliver
  refine ⟨?_, ?_, fanout_invalid_eq deliver subs, ?_⟩
  · intro s hs hsub hperm hmem
    rw [sendNotifications_none_eq] at hmem
    rw [show (updateNotification
        (pruneInvalid st (fanout deliver subs).invalidSubscriptions)
        (markAsSent n subs.length (fanout deliver subs).successCount
          (fanout deliver subs).failureCount)).subscriptions
      = (pruneInvalid st (fanout deliver subs).invalidSubscriptions).subscriptions
      from rfl] at hmem
    exact not_mem_pruneInvalid
      ((invalid_contains_iff deliver subs s.id).mpr ⟨s, hsub, rfl, hperm⟩) hmem
  · intro s hs hnoperm
    rw [sendNotifications_none_eq]
    rw [show (updateNotification
        (pruneInvalid st (fanout deliver subs).invalidSubscriptions)
        (markAsSent n subs.length (fanout deliver subs).successCount
          (fanout deliver subs).failureCount)).subscriptions
      = (pruneInvalid st (fanout deliver subs).invalidSubscriptions).subscriptions
      from rfl]
    by_cases hcont :
        (fanout deliver subs).invalidSubscriptions.contains s.id = true
    · exfalso
      obtain ⟨t, ht, htid, htperm⟩ := (invalid_contains_iff deliver subs s.id).mp hcont
      rw [hnoperm t ht htid] at htperm
      exact Bool.false_ne_true htperm
    · exact mem_pruneInvalid_of hs (by simpa using hcont)
  · intro m hm hid
    rw [sendNotifications_none_eq] at hm
    have hmeq : m = markAsSent n subs.length (fanout deliver subs).successCount
        (fanout deliver subs).failureCount :=
      updateNotification_eq_of_id hm hid
    subst hmeq
    exact fanout_failure_eq deliver subs

/-- Witness for C2: in a two-subscriber dispatch where `subA` gets a 410
and `subB` a 500, `subA` is removed, `subB` is retained, and both
failures count toward `failureCount` = 2. -/
theorem delivery_classification_prune_witness :
    (subA ∈ stABN.subscriptions ∧ subA ∈ [subA, subB] ∧
      permanentFailure (deliverMixed subA) = true ∧
      subA ∉ (sendNotifications stABN notifA [subA, subB]
        deliverMixed none).subscriptions) ∧
    (subB ∈ stABN.subscriptions ∧
      (∀ t ∈ [subA, subB], t.id = subB.id →
        permanentFailure (deliverMixed t) = false) ∧
      subB ∈ (sendNotifications stABN notifA [subA, subB]
        deliverMixed none).subscriptions) ∧
    ((markAsSent notifA 2 0 2)
        ∈ (sendNotifications stABN notifA [subA, subB]
          deliverMixed none).notifications ∧
      (markAsSent notifA 2 0 2).failureCount
        = [subA, subB].countP (fun t => !(deliverMixed t == DeliveryResult.ok))) :=
  ⟨⟨by decide, by decide, by decide,
      (delivery_classification_prune stABN notifA [subA, subB] deliverMixed).1
        subA (by decide) (by decide) (by decide)⟩,
    ⟨by decide,
      by decide,
      (delivery_classification_prune stABN notifA [subA, subB] deliverMixed).2.1
        subB (by decide) (by decide)⟩,
    ⟨by decide,
      (delivery_classification_prune stABN notifA [subA, subB] deliverMixed).2.2.2
        (markAsSent notifA 2 0 2) (by decide) (by decide)⟩⟩

/-- C3: a dispatch whose fan-out runs to completion always finalizes the
record as `sent`, whatever the per-subscriber outcomes (`failureCount > 0`
never yields `failed`); only an engine-level fault — thrown outside the
per-subscriber handlers — produces status `failed`, and in that case
`markAsFailed` records the error message and does not touch the counters,
which therefore keep the values the in-memory record held at the throw
point: the pre-dispatch values when the fault precedes finalization, and
the actual settled tallies (never fabricated values) when the fault is the
rejection of `markAsSent`'s own save after the result fields were
assigned. -/
theorem dispatch_failure_semantics :
    ∀ (st : ServerState) (n : NotificationRec) (subs : List PushSubscriptionRec)
      (deliver : PushSubscriptionRec → DeliveryResult),
      (∀ m ∈ (sendNotifications st n subs deliver none).notifications,
        m.id = n.id → m.status = NStatus.sent) ∧
      (∀ msg, ∀ m ∈ (sendNotifications st n subs deliver
          (some (EngineFault.beforeFanout msg))).notifications,
        m.id = n.id →
          m.status = NStatus.failed ∧ m.errorMessage = some msg ∧
          m.successCount = n.successCount ∧ m.failureCount = n.failureCount ∧
          m.recipientCount = n.recipientCount) ∧
      (∀ msg, ∀ m ∈ (sendNotifications st n subs deliver
          (some (EngineFault.atPrune msg))).notifications,
        m.id = n.id →
          m.status = NStatus.failed ∧ m.errorMessage = some msg ∧
          m.successCount = n.successCount ∧ m.failureCount = n.failureCount ∧
          m.recipientCount = n.recipientCount) ∧
      (∀ msg, ∀ m ∈ (sendNotifications st n subs deliver
          (some (EngineFault.atFinalize msg))).notifications,
        m.id = n.id →
          m.status = NStatus.failed ∧ m.errorMessage = some msg ∧
          m.successCount = (fanout deliver subs).successCount ∧
          m.failureCount = (fanout deliver subs).failureCount) := by
  intro st n subs deliver
  refine ⟨?_, ?_, ?_, ?_⟩
  · intro m hm hid
    rw [sendNotifications_none_eq] at hm
    have hmeq : m = markAsSent n subs.length (fanout deliver subs).successCount
        (fanout deliver subs).failureCount :=
      updateNotification_eq_of_id hm hid
    subst hmeq
    rfl
  · intro msg m hm hid
    rw [sendNotifications_beforeFanout_eq] at hm
    have hmeq : m = markAsFailed n msg := updateNotification_eq_of_id hm hid
    subst hmeq
    exact ⟨rfl, rfl, rfl, rfl, rfl⟩
  · intro msg m hm hid
    rw [sendNotifications_atPrune_eq] at hm
    have hmeq : m = markAsFailed n msg := updateNotification_eq_of_id hm hid
    subst hmeq
    exact ⟨rfl, rfl, rfl, rfl, rfl⟩
  · intro msg m hm hid
    rw [sendNotifications_atFinalize_eq] at hm
    have hmeq : m = markAsFailed
        (markAsSent n subs.length (fanout deliver subs).successCount
          (fanout deliver subs).failureCount) msg :=
      updateNotification_eq_of_id hm hid
    subst hmeq
    exact ⟨rfl, rfl, rfl, rfl⟩

/-- Witness for C3: a dispatch in which the only delivery fails is still
finalized `sent` with `failureCount` 1; a pre-fan-out engine fault yields
`failed` with the message recorded and both counters at their
pre-dispatch value 0. -/
theorem dispatch_failure_semantics_witness :
    ((markAsSent notifA 1 0 1)
        ∈ (sendNotifications stAN notifA [subA] deliverLibErr none).notifications ∧
      (markAsSent notifA 1 0 1).status = NStatus.sent ∧
      (markAsSent notifA 1 0 1).failureCount = 1) ∧
    ((markAsFailed notifA "boom")
        ∈ (sendNotifications stAN notifA [subA] deliverLibErr
          (some (EngineFault.beforeFanout "boom"))).notifications ∧
      (markAsFailed notifA "boom").status = NStatus.failed ∧
      (markAsFailed notifA "boom").errorMessage = some "boom" ∧
      (markAsFailed notifA "boom").successCount = notifA.successCount ∧
      (markAsFailed notifA "boom").failureCount = notifA.failureCount) :=
  ⟨⟨by decide,
      ((dispatch_failure_semantics stAN notifA [subA] deliverLibErr).1
        (markAsSent notifA 1 0 1) (by decide) (by decide)),
      by decide⟩,
    ⟨by decide,
      by decide,
      by decide,
      ((dispatch_failure_semantics stAN notifA [subA] deliverLibErr).2.1 "boom"
        (markAsFailed notifA "boom") (by decide) (by decide)).2.2.1,
      by decide⟩⟩

/-- C4 counterexample: the claim says the fan-out subscriber list is
re-read after the pending record is created.  It is not: at a
dispatch-time store in which tenant 1 has two current subscriptions, a
dispatch carrying the snapshot `[subA]` read before record creation
delivers (all-success oracle) to exactly one subscriber — the finalized
record has `successCount + failureCount = 1` and `recipientCount = 1`
while the current subscriber list has length 2, so the engine fanned out
to the original snapshot, not to a fresh read. -/
theorem snapshot_not_reread_cex :
    (subsForClient stABN 1).length = 2 ∧
    (sendNotifications stABN notifA [subA] deliverOk none).notifications
      = [markAsSent notifA 1 1 0] ∧
    (markAsSent notifA 1 1 0).successCount
      + (markAsSent notifA 1 1 0).failureCount = 1 ∧
    (markAsSent notifA 1 1 0).recipientCount = 1 := by decide

/-- C4 amended: the `/send` handler reads the subscriber list once, before
the pending record is created; the dispatch job carries exactly that
snapshot, `recipientCount` equals its length, and at every dispatch-time
store (however the subscriber list has churned) the finalized record's
`recipientCount` and count total still equal that same snapshot length —
the two can never diverge. -/
theorem snapshot_single_read :
    ∀ (urlTest : String → Bool) (clientId : Nat) (req : SendRequest)
      (st st1 : ServerState) (resp : SendResponse) (job : DispatchJob),
      handleSend urlTest clientId req st = (st1, resp, some job) →
        job.subscriptions = subsForClient st clientId ∧
        job.notification.recipientCount = job.subscriptions.length ∧
        ∀ (deliver : PushSubscriptionRec → DeliveryResult) (st2 : ServerState),
          ∀ m ∈ (sendNotifications st2 job.notification job.subscriptions
              deliver none).notifications,
            m.id = job.notification.id →
              m.recipientCount = job.subscriptions.length ∧
              m.successCount + m.failureCount = job.subscriptions.length := by
  intro urlTest clientId req st st1 resp job h
  obtain ⟨_, hsubs, _, _, hrc, _, _, _, _, _⟩ := handleSend_some h
  refine ⟨hsubs, hrc, ?_⟩
  intro deliver st2 m hm hid
  rw [sendNotifications_none_eq] at hm
  have hmeq : m = markAsSent job.notification job.subscriptions.length
      (fanout deliver job.subscriptions).successCount
      (fanout deliver job.subscriptions).failureCount :=
    updateNotification_eq_of_id hm hid
  subst hmeq
  exact ⟨rfl, fanout_sum deliver job.subscriptions⟩

/-- Witness for C4 amended: sending `reqHello` against `stA` captures the
snapshot `[subA]` and sets `recipientCount` to its length. -/
theorem snapshot_single_read_witness :
    (handleSend urlTrue 1 reqHello stA
      = (stAN, SendResponse.accepted 0 1, some jobA)) ∧
    jobA.subscriptions = subsForClient stA 1 ∧
    jobA.notification.recipientCount = jobA.subscriptions.length :=
  ⟨by decide,
    (snapshot_single_read urlTrue 1 reqHello stA stAN
      (SendResponse.accepted 0 1) jobA (by decide)).1,
    (snapshot_single_read urlTrue 1 reqHello stA stAN
      (SendResponse.accepted 0 1) jobA (by decide)).2.1⟩

/-- C5: a send request against a tenant whose current subscription set is
empty never creates a Notification record: the whole store is unchanged
(even after the would-be dispatch), the request is never acknowledged as
accepted, and when the earlier validation and tenant checks pass the
response is exactly the 400 no-subscribers rejection. -/
theorem empty_subscribers_rejected :
    ∀ (urlTest : String → Bool) (clientId : Nat) (req : SendRequest)
      (deliver : PushSubscriptionRec → DeliveryResult) (fault : Option EngineFault)
      (st : ServerState),
      subsForClient st clientId = [] →
        (processSend urlTest clientId req deliver fault st).1 = st ∧
        (∀ i rc, (processSend urlTest clientId req deliver fault st).2
          ≠ SendResponse.accepted i rc) ∧
        ((validateNotificationContent req.title req.content).isValid = true →
          (∃ v, promoStep urlTest req.promoImageUrl = Except.ok v) →
          (∃ c, findClient st clientId = some c ∧ c.status = "active") →
          (processSend urlTest clientId req deliver fault st).2
            = SendResponse.noSubscribers ∧
          SendResponse.noSubscribers.httpStatus = 400) := by
  intro urlTest clientId req deliver fault st hempty
  have hnone : (handleSend urlTest clientId req st).2.2 = none := by
    rcases handleSend_spec urlTest clientId req st with ⟨hn, _, _⟩ |
      ⟨job, _, _, _, _, hsubs, hlen, _⟩
    · exact hn
    · exfalso
      rw [hsubs, hempty] at hlen
      exact hlen rfl
  refine ⟨?_, ?_, ?_⟩
  · rw [processSend_of_none_eq hnone]
    exact handleSend_none_state hnone
  · intro i rc
    rw [processSend_of_none_eq hnone]
    rcases handleSend_spec urlTest clientId req st with ⟨_, _, hne⟩ |
      ⟨job, hsome, _⟩
    · exact hne i rc
    · rw [hnone] at hsome
      simp at hsome
  · intro hvalid hpromo hclient
    have hEq := (handleSend_valid_eq hvalid hpromo hclient).1 hempty
    rw [processSend_of_none_eq hnone, hEq]
    exact ⟨rfl, rfl⟩

/-- Witness for C5: a send against the tenant with zero subscriptions
leaves the store unchanged and returns the no-subscribers rejection. -/
theorem empty_subscribers_rejected_witness :
    (subsForClient stEmptySubs 1 = []) ∧
    (processSend urlTrue 1 reqHello deliverOk none stEmptySubs).1 = stEmptySubs ∧
    (processSend urlTrue 1 reqHello deliverOk none stEmptySubs).2
      = SendResponse.noSubscribers :=
  ⟨by decide,
    (empty_subscribers_rejected urlTrue 1 reqHello deliverOk none stEmptySubs
      (by decide)).1,
    ((empty_subscribers_rejected urlTrue 1 reqHello deliverOk none stEmptySubs
      (by decide)).2.2 (by decide) ⟨none, rfl⟩ ⟨clientA, by decide, rfl⟩).1⟩

/-- C6 counterexample: the claim says a send request issued while VAPID
configuration is absent is rejected synchronously before any persistence
or dispatch.  It is not: module initialization only logs a warning, the
handler performs no VAPID check, and with both keys absent a well-formed
request is accepted (202) and its record persisted, dispatched, and
finalized — here as `sent` with one failed delivery (the push library
throwing on every call for lack of VAPID credentials). -/
theorem vapid_unchecked_cex :
    vapidConfigured none none = false ∧
    (processSendWithVapid none none urlTrue 1 reqHello deliverLibErr
      none stA).2 = SendResponse.accepted 0 1 ∧
    (processSendWithVapid none none urlTrue 1 reqHello deliverLibErr
      none stA).1.notifications = [markAsSent notifA 1 0 1] := by decide

/-- C6 amended: when VAPID keys are not configured the system only logs a
warning at startup and does not disable send: the `/send` handler never
consults the VAPID configuration, so an otherwise-valid request is
accepted with a 202 and a Notification record is persisted and
dispatched exactly as when the keys are present; the absent credentials
surface only as per-delivery failures at the push library, not as a
synchronous rejection. -/
theorem vapid_absent_send_proceeds :
    ∀ (vapidPublicKey vapidPrivateKey : Option String) (urlTest : String → Bool)
      (clientId : Nat) (req : SendRequest)
      (deliver : PushSubscriptionRec → DeliveryResult) (fault : Option EngineFault)
      (st : ServerState),
      (validateNotificationContent req.title req.content).isValid = true →
      (∃ v, promoStep urlTest req.promoImageUrl = Except.ok v) →
      (∃ c, findClient st clientId = some c ∧ c.status = "active") →
      subsForClient st clientId ≠ [] →
        (processSendWithVapid vapidPublicKey vapidPrivateKey urlTest clientId req
            deliver fault st).2
          = SendResponse.accepted st.nextNotificationId
              (subsForClient st clientId).length ∧
        (processSendWithVapid vapidPublicKey vapidPrivateKey urlTest clientId req
            deliver fault st).1.notifications.length
          = st.notifications.length + 1 := by
  intro vpk vsk urlTest clientId req deliver fault st hvalid hpromo hclient hne
  obtain ⟨hresp, hlen, job, hsome⟩ :=
    (handleSend_valid_eq hvalid hpromo hclient).2 hne
  show (processSend urlTest clientId req deliver fault st).2 = _ ∧
    (processSend urlTest clientId req deliver fault st).1.notifications.length = _
  rw [processSend_of_some_eq hsome]
  refine ⟨hresp, ?_⟩
  show (sendNotifications (handleSend urlTest clientId req st).1
      job.notification job.subscriptions deliver fault).notifications.length = _
  rw [sendNotifications_notifications_length]
  exact hlen

/-- Witness for C6 amended: with both VAPID keys absent, `reqHello`
against `stA` is accepted and one new record is stored. -/
theorem vapid_absent_send_proceeds_witness :
    ((validateNotificationContent reqHello.title reqHello.content).isValid
      = true) ∧
    (subsForClient stA 1 ≠ []) ∧
    (processSendWithVapid none none urlTrue 1 reqHello deliverLibErr
        none stA).2
      = SendResponse.accepted stA.nextNotificationId
          (subsForClient stA 1).length ∧
    (processSendWithVapid none none urlTrue 1 reqHello deliverLibErr
        none stA).1.notifications.length
      = stA.notifications.length + 1 :=
  ⟨by decide, by decide,
    (vapid_absent_send_proceeds none none urlTrue 1 reqHello deliverLibErr
      none stA (by decide) ⟨none, rfl⟩ ⟨clientA, by decide, rfl⟩ (by decide)).1,
    (vapid_absent_send_proceeds none none urlTrue 1 reqHello deliverLibErr
      none stA (by decide) ⟨none, rfl⟩ ⟨clientA, by decide, rfl⟩ (by decide)).2⟩

/-- C7: a send request whose title sanitizes to more than 100 characters,
or whose content sanitizes to more than 500 characters (length measured
after trimming and stripping the five XSS characters), is rejected with a
400 validation error carrying a non-empty error list, before any record is
created — the store is unchanged even after the would-be dispatch. -/
theorem oversize_content_rejected :
    ∀ (urlTest : String → Bool) (clientId : Nat) (req : SendRequest)
      (deliver : PushSubscriptionRec → DeliveryResult) (fault : Option EngineFault)
      (st : ServerState),
      ((∃ t, req.title = some t ∧ 100 < (sanitizeString t).length) ∨
        (∃ c0, req.content = some c0 ∧ 500 < (sanitizeString c0).length)) →
        (processSend urlTest clientId req deliver fault st).1 = st ∧
        (processSend urlTest clientId req deliver fault st).2
          = SendResponse.validationFailed
              (validateNotificationContent req.title req.content).errors ∧
        (validateNotificationContent req.title req.content).isValid = false ∧
        (validateNotificationContent req.title req.content).errors ≠ [] := by
  intro urlTest clientId req deliver fault st hover
  obtain ⟨hinvalid, herrs⟩ := validateNotificationContent_oversize hover
  have hEq := @handleSend_invalid urlTest clientId req st hinvalid
  have hnone : (handleSend urlTest clientId req st).2.2 = none := by
    rw [hEq]
  rw [processSend_of_none_eq hnone, hEq]
  exact ⟨rfl, rfl, hinvalid, herrs⟩

/-- Witness for C7: a 101-character title is rejected with a validation
error and the store is untouched. -/
theorem oversize_content_rejected_witness :
    (100 < (sanitizeString
      (String.mk (List.replicate 101 (Char.ofNat 97)))).length) ∧
    (processSend urlTrue 1 reqLongTitle deliverOk none stA).1 = stA ∧
    (validateNotificationContent reqLongTitle.title reqLongTitle.content).isValid
      = false :=
  ⟨by decide,
    (oversize_content_rejected urlTrue 1 reqLongTitle deliverOk none stA
      (Or.inl ⟨String.mk (List.replicate 101 (Char.ofNat 97)), rfl,
        by decide⟩)).1,
    (oversize_content_rejected urlTrue 1 reqLongTitle deliverOk none stA
      (Or.inl ⟨String.mk (List.replicate 101 (Char.ofNat 97)), rfl,
        by decide⟩)).2.2.1⟩

/-- C8: registering a subscription for a `(tenant, endpoint)` pair that
already has a stored record updates that record in place — the response is
`updated`, the store is the map replacing the found record's subscription
object, and the record count is unchanged; after any upsert the pair has
exactly one stored record; in every reachable store no two subscriptions
share a `(tenant, endpoint)` pair; and registering twice with the same
payload is idempotent on the stored set. -/
theorem subscribe_upsert_unique :
    (∀ (ua : Option String) (req : SubscribeRequest) (st : ServerState)
        (sub : SubPayload) (cid : Nat) (ex : PushSubscriptionRec),
      req.subscription = some sub → req.clientId = some cid →
      invalidShape sub = false →
      (∃ c, findClient st cid = some c ∧ c.status = "active") →
      st.subscriptions.find? (pairMatch cid (payloadSubObj sub).endpoint)
        = some ex →
        (handleSubscribe ua req st).2 = SubscribeResponse.updated ex.id ∧
        (handleSubscribe ua req st).1.subscriptions
          = st.subscriptions.map (replaceSub ex.id (payloadSubObj sub)) ∧
        (handleSubscribe ua req st).1.subscriptions.length
          = st.subscriptions.length) ∧
    (∀ (ua : Option String) (req : SubscribeRequest) (st : ServerState)
        (sub : SubPayload) (cid : Nat),
      req.subscription = some sub → req.clientId = some cid →
      invalidShape sub = false →
      (∃ c, findClient st cid = some c ∧ c.status = "active") →
      subsUnique st →
      st.subscriptions.Pairwise (fun a b => a.id ≠ b.id) →
        (handleSubscribe ua req st).1.subscriptions.countP
          (pairMatch cid (payloadSubObj sub).endpoint) = 1) ∧
    (∀ (clients : List Client) (ops : List Op), subsUnique (runOps clients ops)) ∧
    (∀ (ua : Option String) (req : SubscribeRequest) (st : ServerState),
      st.subscriptions.Pairwise (fun a b => a.id ≠ b.id) →
      (∀ r ∈ st.subscriptions, r.id ≠ st.nextSubscriptionId) →
        (handleSubscribe ua req ((handleSubscribe ua req st).1)).1
          = (handleSubscribe ua req st).1) := by
  refine ⟨?_, ?_, ?_, ?_⟩
  · intro ua req st sub cid ex hsub hcid hshape hclient hfind
    have hEq := (@handleSubscribe_upsert_eq ua req st sub cid
      hsub hcid hshape hclient).1 ex hfind
    rw [hEq]
    exact ⟨rfl, rfl, by simp⟩
  · intro ua req st sub cid hsub hcid hshape hclient huniq hids
    exact handleSubscribe_pair_count hsub hcid hshape hclient huniq hids
  · intro clients ops
    exact (storeInv_runOps clients ops).2.1
  · intro ua req st hids hfresh
    exact handleSubscribe_idem ua req st hids hfresh

/-- Witness for C8: re-registering `subA`'s endpoint with fresh keys
updates the existing record (response `updated`, one record for the pair),
the reachable-store uniqueness holds after a subscribe, and a repeated
identical registration leaves the store unchanged. -/
theorem subscribe_upsert_unique_witness :
    (stA.subscriptions.find? (pairMatch 1 (payloadSubObj subPayloadA).endpoint)
      = some subA) ∧
    ((handleSubscribe none reqSub stA).2 = SubscribeResponse.updated subA.id ∧
      (handleSubscribe none reqSub stA).1.subscriptions.length
        = stA.subscriptions.length) ∧
    (handleSubscribe none reqSub stA).1.subscriptions.countP
      (pairMatch 1 (payloadSubObj subPayloadA).endpoint) = 1 ∧
    subsUnique (runOps [clientA] [Op.subscribe none reqSub]) ∧
    (handleSubscribe none reqSub ((handleSubscribe none reqSub stA).1)).1
      = (handleSubscribe none reqSub stA).1 :=
  ⟨by decide,
    ⟨(subscribe_upsert_unique.1 none reqSub stA subPayloadA 1 subA rfl rfl
        (by decide) ⟨clientA, by decide, rfl⟩ (by decide)).1,
      (subscribe_upsert_unique.1 none reqSub stA subPayloadA 1 subA rfl rfl
        (by decide) ⟨clientA, by decide, rfl⟩ (by decide)).2.2⟩,
    subscribe_upsert_unique.2.1 none reqSub stA subPayloadA 1 rfl rfl
      (by decide) ⟨clientA, by decide, rfl⟩ (by decide) (by decide),
    subscribe_upsert_unique.2.2.1 [clientA] [Op.subscribe none reqSub],
    subscribe_upsert_unique.2.2.2 none reqSub stA (by decide) (by decide)⟩

/-- C9: a registration request whose payload lacks the endpoint string,
the keys object, the `keys.p256dh` string or the `keys.auth` string is
rejected with a 400 response before the store is reached: no subscription
record is created or updated. -/
theorem subscribe_payload_validation :
    ∀ (ua : Option String) (req : SubscribeRequest) (st : ServerState),
      (req.subscription = none ∨
        ∃ sub, req.subscription = some sub ∧
          (sub.endpoint = none ∨ sub.keys = none ∨
            ∃ k, sub.keys = some k ∧ (k.p256dh = none ∨ k.auth = none))) →
      (handleSubscribe ua req st).1 = st ∧
      ((handleSubscribe ua req st).2 = SubscribeResponse.missingFields ∨
        (handleSubscribe ua req st).2 = SubscribeResponse.invalidSubscription) ∧
      (handleSubscribe ua req st).2.httpStatus = 400 := by
  intro ua req st hmiss
  have hmiss2 : req.subscription = none ∨
      ∃ sub, req.subscription = some sub ∧ invalidShape sub = true := by
    rcases hmiss with h | ⟨sub, hsub, hrest⟩
    · exact Or.inl h
    · exact Or.inr ⟨sub, hsub, invalidShape_of_missing hrest⟩
  obtain ⟨hst, hresp⟩ := @handleSubscribe_invalid ua req st hmiss2
  refine ⟨hst, hresp, ?_⟩
  rcases hresp with h | h <;> rw [h] <;> rfl

/-- Witness for C9: a payload missing `keys.auth` is rejected with a 400
and the store is untouched. -/
theorem subscribe_payload_validation_witness :
    ((handleSubscribe none reqSubNoAuth stA).1 = stA) ∧
    ((handleSubscribe none reqSubNoAuth stA).2.httpStatus = 400) :=
  ⟨(subscribe_payload_validation none reqSubNoAuth stA
      (Or.inr ⟨subPayloadNoAuth, rfl,
        Or.inr (Or.inr ⟨keysNoAuth, rfl, Or.inr rfl⟩)⟩)).1,
    (subscribe_payload_validation none reqSubNoAuth stA
      (Or.inr ⟨subPayloadNoAuth, rfl,
        Or.inr (Or.inr ⟨keysNoAuth, rfl, Or.inr rfl⟩)⟩)).2.2⟩

/-- C10: the preview handler never mutates the store — for every input,
valid or invalid, the state component of its result is the input store
unchanged, so no Notification, Subscription or Client is created or
modified by a preview. -/
theorem preview_no_mutation :
    ∀ (urlTest : String → Bool) (clientId : Nat) (req : SendRequest)
      (st : ServerState),
      (handlePreview urlTest clientId req st).1 = st :=
  handlePreview_fst

end PwaPush

